import Mathlib

/-!
Verification development for the Magazyn ITS Kielce backend
(`src/backend/server.py`): a device-inventory and field-service tracking
API.  The Python handlers are shallowly embedded as pure Lean functions
over an explicit database state (`DB`).  MongoDB collections become Lean
lists kept in insertion order (`find_one` = first match in list order,
`insert_one` = append at the tail, `update_one` = rewrite the first match,
with `modified_count` counting documents whose contents actually changed,
as Mongo reports it).  Failures raised with `HTTPException(status, detail)`
become `Except HErr` errors carrying the same status code and detail
string; every handler of interest raises before its first write, so an
error result leaving the state untouched is faithful to the source.
Random identifiers (`uuid`, `secrets.token_urlsafe`) and the current time
are passed in as explicit parameters; the SHA-256 password digest is a
function parameter, since the handlers only compare digests for equality.
-/

namespace ITS

/-- Lower-case a string character by character (models Python `.lower()` /
the `$options: "i"` regex flag on the ASCII identifiers used by the app). -/
def lowerStr (s : String) : String :=
  ⟨s.data.map Char.toLower⟩

/-- Upper-case a string character by character (models Python `.upper()`). -/
def upperStr (s : String) : String :=
  ⟨s.data.map Char.toUpper⟩

/-- Case-insensitive equality of strings. -/
def ciEq (a b : String) : Bool :=
  lowerStr a = lowerStr b

/-- `leadsWith needle hay`: `needle` is an initial segment of `hay`. -/
def leadsWith : List Char → List Char → Bool
  | [], _ => true
  | _ :: _, [] => false
  | a :: as, b :: bs => a = b && leadsWith as bs

/-- `occursIn needle hay`: `needle` occurs contiguously inside `hay`
(models Python's `needle in hay` on strings). -/
def occursIn (needle : List Char) : List Char → Bool
  | [] => leadsWith needle []
  | b :: bs => leadsWith needle (b :: bs) || occursIn needle bs

/-- `strContains hay needle`: substring test on strings. -/
def strContains (hay needle : String) : Bool :=
  occursIn needle.data hay.data

/-- Python `str.strip()` whitespace predicate (the characters that occur
in the app's inputs). -/
def isStripChar (ch : Char) : Bool :=
  ch = ' ' || ch = '\t' || ch = '\n' || ch = '\r'

/-- Strip whitespace from both ends of a character list. -/
def stripList (cs : List Char) : List Char :=
  ((cs.dropWhile isStripChar).reverse.dropWhile isStripChar).reverse

/-- Python `s.strip()`. -/
def stripStr (s : String) : String :=
  ⟨stripList s.data⟩

/-- `scan_device`'s input normalisation:
`code.strip().replace('\r', '').replace('\n', '')`. -/
def cleanCode (code : String) : String :=
  ⟨(stripList code.data).filter (fun ch => !(ch = '\r' || ch = '\n'))⟩

/-- Python truthiness of an optional string field read with `body.get(k)`:
`None` and `""` are falsy. -/
def truthy : Option String → Bool
  | none => false
  | some s => s ≠ ""

/-- The string value of an optional cell, Python's
`str(x) if x else ""`. -/
def cellStr : Option String → String
  | none => ""
  | some s => s

-- ==================== DATA MODEL ====================

/-- A document of the `users` collection. -/
structure User where
  user_id : String
  email : String
  name : String
  password_hash : String
  role : String
  last_login_at : Option Nat := none
  last_login_ip : Option String := none
  last_login_device : Option String := none
deriving Repr, DecidableEq

/-- A user as returned by handlers that project out `_id` and
`password_hash` (`{"_id": 0, "password_hash": 0}`). -/
structure SanitizedUser where
  user_id : String
  email : String
  name : String
  role : String
  last_login_at : Option Nat := none
  last_login_ip : Option String := none
  last_login_device : Option String := none
deriving Repr, DecidableEq

/-- Drop the `password_hash` field of a stored user. -/
def sanitizeUser (u : User) : SanitizedUser :=
  { user_id := u.user_id, email := u.email, name := u.name, role := u.role
    last_login_at := u.last_login_at, last_login_ip := u.last_login_ip
    last_login_device := u.last_login_device }

/-- A document of the `user_sessions` collection. -/
structure Session where
  user_id : String
  session_token : String
  expires_at : Nat
  created_at : Nat
deriving Repr, DecidableEq

/-- A document of the `devices` collection.  `kod_kreskowy`, `kod_qr` and
`przypisany_do` are nullable; the fields after `created_at` are added
dynamically by the import / installation handlers. -/
structure Device where
  device_id : String
  nazwa : String
  numer_seryjny : String
  kod_kreskowy : Option String := none
  kod_qr : Option String := none
  przypisany_do : Option String := none
  status : String := "dostepny"
  zainstalowany_przez : Option String := none
  installer_name : Option String := none
  adres_instalacji : Option String := none
  data_instalacji : Option Nat := none
deriving Repr, DecidableEq

/-- A document of the `installations` collection.  The float-valued
`latitude`/`longitude` pass-through fields are outside the embedding. -/
structure Installation where
  installation_id : String
  device_id : String
  user_id : String
  installer_name : String
  nazwa_urzadzenia : String
  numer_seryjny : String
  kod_kreskowy : String
  data_instalacji : Nat
  adres_klienta : String
  rodzaj_zlecenia : String
deriving Repr, DecidableEq

/-- A document of the `tasks` collection.  `completion_photos`,
`completed_at` and `completed_by` are added dynamically by `update_task`. -/
structure Task where
  task_id : String
  title : String
  description : Option String := none
  assigned_to : String
  assigned_by : String
  due_date : Nat
  status : String := "oczekujace"
  priority : String := "normalne"
  completion_photos : Option (List String) := none
  completed_at : Option Nat := none
  completed_by : Option String := none
deriving Repr, DecidableEq

/-- A document of the `messages` collection. -/
structure Message where
  message_id : String
  sender_id : String
  sender_name : String
  content : Option String := none
  attachment : Option String := none
  attachment_type : Option String := none
  created_at : Nat
deriving Repr, DecidableEq

/-- A document of the `device_returns` collection.  A freshly inserted
entry has no `returned_to_warehouse` field; the handlers only ever filter
with `{"$ne": True}`, so the absent field is modelled as `false`. -/
structure DeviceReturn where
  return_id : String
  device_serial : String
  device_type : String
  device_status : String
  scanned_at : Nat
  scanned_by : String
  scanned_by_name : String
  returned_to_warehouse : Bool := false
  returned_at : Option Nat := none
deriving Repr, DecidableEq

/-- A document of the `activity_logs` collection (the fields the embedded
handlers write). -/
structure ActivityLog where
  log_id : String
  timestamp : Nat
  user_id : String
  user_name : String
  user_role : String
  action_type : String
  action_description : String
  device_serial : Option String := none
  device_name : Option String := none
  device_id : Option String := none
  target_user_id : Option String := none
  target_user_name : Option String := none
  ip_address : Option String := none
deriving Repr, DecidableEq

/-- The database state: one list per collection, in insertion order. -/
structure DB where
  users : List User := []
  user_sessions : List Session := []
  devices : List Device := []
  installations : List Installation := []
  tasks : List Task := []
  messages : List Message := []
  device_returns : List DeviceReturn := []
  activity_logs : List ActivityLog := []
deriving Repr, DecidableEq

/-- An HTTP error: `HTTPException(status_code, detail)`. -/
structure HErr where
  status : Nat
  detail : String
deriving Repr, DecidableEq

-- ==================== GENERIC COLLECTION OPERATIONS ====================

/-- Mongo `update_one`: rewrite the first document matching `p` with `f`
and report `modified_count` (1 exactly when a matching document exists and
`f` actually changes it, as Mongo reports modifications). -/
def updateOne [DecidableEq α] (p : α → Bool) (f : α → α) : List α → List α × Nat
  | [] => ([], 0)
  | x :: xs =>
    if p x then (f x :: xs, if f x = x then 0 else 1)
    else
      let r := updateOne p f xs
      (x :: r.1, r.2)

-- ==================== AUTH ====================

/-- `get_current_user`: resolve a session token to a user, failing closed
on a missing session or a lazily-checked expiry; the user lookup projects
out `password_hash`. -/
def get_current_user (db : DB) (token : Option String) (now : Nat) :
    Option SanitizedUser :=
  match token with
  | none => none
  | some tok =>
    match db.user_sessions.find? (fun s => s.session_token = tok) with
    | none => none
    | some session =>
      if session.expires_at ≤ now then none
      else
        match db.users.find? (fun u => u.user_id = session.user_id) with
        | none => none
        | some u => some (sanitizeUser u)

/-- The JSON body returned by a successful `POST /auth/login`. -/
structure LoginResponse where
  user_id : String
  email : String
  name : String
  role : String
  session_token : String
deriving Repr, DecidableEq

/-- The session document `login` inserts: a fresh token with a 7-day
(`timedelta(days=7)`) expiry. -/
def loginNewSession (uid token : String) (now : Nat) : Session :=
  { user_id := uid, session_token := token
    expires_at := now + 7 * 24 * 60 * 60, created_at := now }

/-- The write set of a successful `login` for user `u`: `delete_many` of
the user's sessions followed by the insert of the fresh session, the
last-login metadata `update_one` on the user document, and the appended
activity-log entry. -/
def loginStep (db : DB) (u : User) (token : String) (now : Nat)
    (clientIp userAgent logId : String) : DB :=
  { db with
    user_sessions :=
      db.user_sessions.filter (fun s => s.user_id ≠ u.user_id)
        ++ [loginNewSession u.user_id token now]
    users := (updateOne (fun v => v.user_id = u.user_id)
      (fun v => { v with
        last_login_at := some now
        last_login_ip := some clientIp
        last_login_device := some userAgent }) db.users).1
    activity_logs := db.activity_logs ++
      [{ log_id := logId, timestamp := now
         user_id := u.user_id, user_name := u.name, user_role := u.role
         action_type := "login", action_description := "Zalogowano do systemu"
         ip_address := some clientIp }] }

/-- `POST /auth/login`: look the user up by lower-cased email, compare the
password digest, and on success perform `loginStep` and return the token.
`hash` is the SHA-256 digest function, `token` the freshly generated
session token and `logId` the generated log id. -/
def login (hash : String → String) (db : DB) (email password : String)
    (token : String) (now : Nat) (clientIp userAgent logId : String) :
    Except HErr (DB × LoginResponse) :=
  match db.users.find? (fun u => u.email = lowerStr email) with
  | none => .error ⟨401, "Nieprawidłowy email lub hasło"⟩
  | some user =>
    if user.password_hash ≠ hash password then
      .error ⟨401, "Nieprawidłowy email lub hasło"⟩
    else
      .ok (loginStep db user token now clientIp userAgent logId,
           { user_id := user.user_id, email := user.email, name := user.name
             role := user.role, session_token := token })

-- ==================== USER LISTINGS ====================

/-- `GET /users`: all users with `_id` and `password_hash` projected out. -/
def get_users (db : DB) : List SanitizedUser :=
  db.users.map sanitizeUser

/-- `GET /workers`: users with role `pracownik`, same projection. -/
def get_workers (db : DB) : List SanitizedUser :=
  (db.users.filter (fun u => u.role = "pracownik")).map sanitizeUser

-- ==================== BACKUP ====================

/-- A message as placed in a backup: the `attachment` field is projected
out (`{"_id": 0, "attachment": 0}`). -/
structure BackupMessage where
  message_id : String
  sender_id : String
  sender_name : String
  content : Option String
  attachment_type : Option String
  created_at : Nat
deriving Repr, DecidableEq

/-- Drop the `attachment` field of a message. -/
def stripAttachment (m : Message) : BackupMessage :=
  { message_id := m.message_id, sender_id := m.sender_id
    sender_name := m.sender_name, content := m.content
    attachment_type := m.attachment_type, created_at := m.created_at }

/-- The backup snapshot document (`created_at`, `version`, `data`). -/
structure BackupData where
  created_at : Nat
  version : String
  users : List User
  devices : List Device
  installations : List Installation
  tasks : List Task
  messages : List BackupMessage
deriving Repr, DecidableEq

/-- `create_backup_data`: snapshot the `users`, `devices`, `installations`,
`tasks` and `messages` collections.  Only `_id` is projected out of users
(the stored `password_hash` is carried into the snapshot verbatim);
messages additionally lose their `attachment`. -/
def create_backup_data (db : DB) (now : Nat) : BackupData :=
  { created_at := now, version := "1.0"
    users := db.users
    devices := db.devices
    installations := db.installations
    tasks := db.tasks
    messages := db.messages.map stripAttachment }

/-- Replace every stored password hash with a fixed scrubbed value; a
handler response is hash-free exactly when it is invariant under this. -/
def scrubHashes (db : DB) : DB :=
  { db with users := db.users.map (fun u => { u with password_hash := "" }) }

-- ==================== RETURNS ====================

/-- The `$set` applied by `POST /returns/mark-returned`. -/
def markReturnUpd (now : Nat) (r : DeviceReturn) : DeviceReturn :=
  { r with returned_to_warehouse := true, returned_at := some now }

/-- `POST /returns/mark-returned`: `update_many` over the pending entries
(`returned_to_warehouse ≠ true`), setting the flag and a timestamp, and
report the number of modified documents. -/
def mark_returns_as_returned (db : DB) (now : Nat) : DB × Nat :=
  ({ db with device_returns := db.device_returns.map
                (fun r => if !r.returned_to_warehouse then markReturnUpd now r else r) },
   (db.device_returns.filter
     (fun r => !r.returned_to_warehouse && decide (markReturnUpd now r ≠ r))).length)

-- ==================== DEVICE SCAN ====================

/-- Case-insensitive exact match against a nullable field (`$regex ^c$`
with `$options: "i"`; a `null` field never matches a string regex). -/
def optCiEq (f : Option String) (c : String) : Bool :=
  match f with
  | none => false
  | some s => ciEq s c

/-- Scan phase 1: exact match on barcode, QR or serial. -/
def matchExact (c : String) (d : Device) : Bool :=
  d.kod_kreskowy = some c || d.kod_qr = some c || d.numer_seryjny = c

/-- Scan phase 2: case-insensitive exact match on the same three fields. -/
def matchCi (c : String) (d : Device) : Bool :=
  optCiEq d.kod_kreskowy c || optCiEq d.kod_qr c || ciEq d.numer_seryjny c

/-- Scan phase 3: the device's serial contains the scanned code
(unanchored case-insensitive regex on `numer_seryjny`). -/
def matchSerialContains (c : String) (d : Device) : Bool :=
  strContains (lowerStr d.numer_seryjny) (lowerStr c)

/-- A truthy field whose upper-cased value occurs inside the upper-cased
scanned code (phase 4 per-field test). -/
def fieldInCode (c : String) : Option String → Bool
  | none => false
  | some s => !s.isEmpty && strContains (upperStr c) (upperStr s)

/-- Scan phase 4: the scanned code contains the device's serial, barcode
or QR (checked in that order over the full table). -/
def matchCodeContains (c : String) (d : Device) : Bool :=
  (!d.numer_seryjny.isEmpty && strContains (upperStr c) (upperStr d.numer_seryjny))
    || fieldInCode c d.kod_kreskowy || fieldInCode c d.kod_qr

/-- The four-phase matching cascade of `scan_device`: each phase scans the
collection in order and the first phase with a match wins. -/
def findByCode (devices : List Device) (c : String) : Option Device :=
  (devices.find? (matchExact c)).orElse fun _ =>
    (devices.find? (matchCi c)).orElse fun _ =>
      (devices.find? (matchSerialContains c)).orElse fun _ =>
        devices.find? (matchCodeContains c)

/-- A device matches the cleaned code under some phase of the cascade. -/
def devMatches (c : String) (d : Device) : Bool :=
  matchExact c d || matchCi c d || matchSerialContains c d
    || matchCodeContains c d

/-- `GET /devices/scan/{code}`: normalise the input, reject a code whose
cleaned form case-insensitively equals the serial of a pending
`device_returns` entry, then run the four-phase match; a found device is
further blocked for non-admin callers when already installed, damaged or
returned. -/
def scan_device (db : DB) (caller : SanitizedUser) (code : String) :
    Except HErr Device :=
  if db.device_returns.any
      (fun r => ciEq r.device_serial (cleanCode code)
        && !r.returned_to_warehouse) then
    .error ⟨400, "Urządzenie " ++ cleanCode code
      ++ " jest już w panelu Zwrot urządzeń"⟩
  else
    match findByCode db.devices (cleanCode code) with
    | none => .error ⟨404, "Nie znaleziono urządzenia"⟩
    | some d =>
      if caller.role ≠ "admin" then
        if d.status = "zainstalowany" then
          .error ⟨400, "To urządzenie jest już zainstalowane u klienta"⟩
        else if d.status = "uszkodzony" then
          .error ⟨400, "To urządzenie jest oznaczone jako uszkodzone"⟩
        else if d.status = "zwrocony" then
          .error ⟨400, "To urządzenie zostało zwrócone do magazynu"⟩
        else .ok d
      else .ok d

-- ==================== DEVICE IMPORT ====================

/-- A parsed spreadsheet data row (the rows below the header): one
optional string per cell, `none` for an empty cell. -/
abbrev Row := List (Option String)

/-- The result body of `POST /devices/import`. -/
structure ImportResult where
  imported : Nat
  duplicates : Nat
  errors : List String
deriving Repr, DecidableEq

/-- `not row or not row[0]`: a row is skipped unless its first cell is
truthy. -/
def rowFirstTruthy : Row → Bool
  | [] => false
  | c :: _ => truthy c

/-- The `i`-th cell of a row, `none` when the row is shorter. -/
def rowCell (r : Row) (i : Nat) : Option String :=
  (r.get? i).getD none

/-- `str(row[1]) if len(row) > 1 and row[1] else ""`. -/
def rowSerial (r : Row) : String :=
  if truthy (rowCell r 1) then cellStr (rowCell r 1) else ""

/-- `str(row[i]) if len(row) > i and row[i] else None`. -/
def rowOptField (r : Row) (i : Nat) : Option String :=
  if truthy (rowCell r i) then some (cellStr (rowCell r i)) else none

/-- The device document built from an import row.  The random uuid is
modelled as a fresh row-number-derived id; the `created_at`/`imported_at`
and `imported_by` audit metadata are outside the embedding. -/
def importDeviceOfRow (r : Row) (rowNum : Nat) : Device :=
  { device_id := "dev_import_" ++ toString rowNum
    nazwa := cellStr (rowCell r 0)
    numer_seryjny := rowSerial r
    kod_kreskowy := rowOptField r 2
    kod_qr := rowOptField r 3
    przypisany_do := none
    status := "dostepny" }

/-- The writes of one successfully imported row: the device insert and
the appended activity-log entry. -/
def importInsert (admin : SanitizedUser) (_fname : String) (now : Nat)
    (db : DB) (rowNum : Nat) (r : Row) : DB :=
  { db with
    devices := db.devices ++ [importDeviceOfRow r rowNum]
    activity_logs := db.activity_logs ++
      [{ log_id := "log_import_" ++ toString rowNum, timestamp := now
         user_id := admin.user_id, user_name := admin.name, user_role := "admin"
         action_type := "device_import"
         action_description := "Zaimportowano urządzenie "
           ++ (importDeviceOfRow r rowNum).nazwa ++ " (" ++ rowSerial r
           ++ ") z pliku Excel"
         device_serial := some (rowSerial r)
         device_name := some (importDeviceOfRow r rowNum).nazwa
         device_id := some (importDeviceOfRow r rowNum).device_id }] }

/-- The import loop of `POST /devices/import` over the data rows
(`min_row=2`, `row_num` starting at 2): skip rows with a falsy first
cell, reject a blank serial with a per-row error, reject a serial already
present in the store (including ones inserted by earlier rows of the same
batch) as a duplicate, and otherwise insert the device and an
activity-log entry. -/
def importLoop (admin : SanitizedUser) (fname : String) (now : Nat) :
    DB → Nat → List Row → DB × ImportResult
  | db, _, [] => (db, ⟨0, 0, []⟩)
  | db, rowNum, r :: rs =>
    if !rowFirstTruthy r then importLoop admin fname now db (rowNum + 1) rs
    else if rowSerial r = "" then
      let res := importLoop admin fname now db (rowNum + 1) rs
      (res.1, { res.2 with errors :=
        ("Wiersz " ++ toString rowNum ++ ": Brak numeru seryjnego")
          :: res.2.errors })
    else if db.devices.any (fun d => d.numer_seryjny = rowSerial r) then
      let res := importLoop admin fname now db (rowNum + 1) rs
      (res.1, { res.2 with
        duplicates := res.2.duplicates + 1
        errors := ("Wiersz " ++ toString rowNum ++ ": Numer seryjny "
          ++ rowSerial r ++ " już istnieje w systemie") :: res.2.errors })
    else
      let res := importLoop admin fname now
        (importInsert admin fname now db rowNum r) (rowNum + 1) rs
      (res.1, { res.2 with imported := res.2.imported + 1 })

/-- `POST /devices/import` on the already-parsed data rows of the
uploaded sheet. -/
def import_devices (db : DB) (admin : SanitizedUser) (fname : String)
    (now : Nat) (rows : List Row) : DB × ImportResult :=
  importLoop admin fname now db 2 rows

-- ==================== INSTALLATIONS ====================

/-- The JSON body of `POST /installations` (the float-valued
`latitude`/`longitude` pass-through fields are outside the embedding). -/
structure InstallBody where
  device_id : Option String := none
  adres_klienta : Option String := none
  adres : Option String := none
  rodzaj_zlecenia : Option String := none
deriving Repr, DecidableEq

/-- `body.get("adres_klienta") or body.get("adres")`. -/
def resolvedAddr (body : InstallBody) : Option String :=
  if truthy body.adres_klienta then body.adres_klienta else body.adres

/-- The installation record inserted by `POST /installations`. -/
def installRecord (caller : SanitizedUser) (body : InstallBody)
    (device : Device) (now : Nat) (instId : String) : Installation :=
  { installation_id := instId, device_id := cellStr body.device_id
    user_id := caller.user_id, installer_name := caller.name
    nazwa_urzadzenia := device.nazwa
    numer_seryjny := device.numer_seryjny
    kod_kreskowy := device.kod_kreskowy.getD ""
    data_instalacji := now
    adres_klienta := stripStr (cellStr (resolvedAddr body))
    rodzaj_zlecenia := body.rodzaj_zlecenia.getD "instalacja" }

/-- The `$set` flipping the installed device to the admin pool. -/
def installDevUpd (caller : SanitizedUser) (adminId addr : String) (now : Nat)
    (d : Device) : Device :=
  { d with
    status := "zainstalowany"
    przypisany_do := some adminId
    zainstalowany_przez := some caller.user_id
    installer_name := some caller.name
    adres_instalacji := some addr
    data_instalacji := some now }

/-- The success result of `POST /installations`: insert the installation
record, run the device `update_one`, append the activity-log entry. -/
def installOk (db : DB) (caller : SanitizedUser) (body : InstallBody)
    (device : Device) (admin_user : User) (now : Nat) (instId logId : String) :
    DB × Installation :=
  ({ db with
      installations := db.installations ++
        [installRecord caller body device now instId]
      devices := (updateOne (fun d => d.device_id = cellStr body.device_id)
        (installDevUpd caller admin_user.user_id
          (stripStr (cellStr (resolvedAddr body))) now) db.devices).1
      activity_logs := db.activity_logs ++
        [{ log_id := logId, timestamp := now
           user_id := caller.user_id, user_name := caller.name
           user_role := caller.role, action_type := "device_install"
           action_description := "Zainstalowano urządzenie " ++ device.nazwa
             ++ " (" ++ device.numer_seryjny ++ ")"
           device_serial := some device.numer_seryjny
           device_name := some device.nazwa
           device_id := some (cellStr body.device_id) }] },
   installRecord caller body device now instId)

/-- `POST /installations`: require a truthy `device_id` and a non-blank
resolved address, require the device to exist and (for a non-admin
caller) to be assigned to the caller, look up the first user holding the
admin role, insert the installation record, flip the device to
`zainstalowany` owned by that admin, and append an activity-log entry. -/
def create_installation (db : DB) (caller : SanitizedUser) (body : InstallBody)
    (now : Nat) (instId logId : String) : Except HErr (DB × Installation) :=
  if !truthy body.device_id then .error ⟨400, "Wymagane device_id"⟩
  else if !truthy (resolvedAddr body)
      || stripStr (cellStr (resolvedAddr body)) = "" then
    .error ⟨400, "Wymagany adres klienta"⟩
  else
    match db.devices.find? (fun d => d.device_id = cellStr body.device_id) with
    | none => .error ⟨404, "Nie znaleziono urządzenia"⟩
    | some device =>
      if device.przypisany_do ≠ some caller.user_id ∧ caller.role ≠ "admin" then
        .error ⟨403, "To urządzenie nie jest przypisane do Ciebie"⟩
      else
        match db.users.find? (fun u => u.role = "admin") with
        | none => .error ⟨500, "Brak administratora w systemie"⟩
        | some admin_user =>
          .ok (installOk db caller body device admin_user now instId logId)

-- ==================== DEVICE RESTORE / ASSIGN ====================

/-- Accumulator step of the descending-date `find_one`: keep the later of
the two, preferring the earlier-inserted entry on a tie. -/
def chooseLater (acc : Option Installation) (i : Installation) :
    Option Installation :=
  match acc with
  | none => some i
  | some j => if j.data_instalacji < i.data_instalacji then some i else acc

/-- `find_one({"device_id": did}, sort=[("data_instalacji", -1)])`: the
first installation for the device in descending-date order, i.e. the
earliest-inserted entry among those with the maximal date. -/
def latestInstallation (insts : List Installation) (did : String) :
    Option Installation :=
  (insts.filter (fun i => i.device_id = did)).foldl chooseLater none

/-- The response body of `POST /devices/{id}/restore`. -/
structure RestoreResponse where
  message : String
  assigned_to : String
  assigned_to_name : String
deriving Repr, DecidableEq

/-- `original_installer`: the installer of the device's most recent
installation, falling back to the acting admin when there is none. -/
def restoreOwner (db : DB) (admin : SanitizedUser) (device_id : String) :
    String :=
  match latestInstallation db.installations device_id with
  | some inst => inst.user_id
  | none => admin.user_id

/-- The `$set` of the restore write: back to `dostepny`, owned by the
original installer. -/
def restoreUpd (owner : String) (d : Device) : Device :=
  { d with status := "dostepny", przypisany_do := some owner }

/-- `installer.get("name", "Nieznany") if installer else "Nieznany"`. -/
def installerName (db : DB) (uid : String) : String :=
  match db.users.find? (fun u => u.user_id = uid) with
  | some u => u.name
  | none => "Nieznany"

/-- The success result of `POST /devices/{id}/restore`. -/
def restoreResult (db : DB) (admin : SanitizedUser) (device_id : String) :
    DB × RestoreResponse :=
  ({ db with devices := (updateOne (fun d => d.device_id = device_id)
      (restoreUpd (restoreOwner db admin device_id)) db.devices).1 },
   { message := "Urządzenie zostało przywrócone do użytkownika: "
       ++ installerName db (restoreOwner db admin device_id)
     assigned_to := restoreOwner db admin device_id
     assigned_to_name := installerName db (restoreOwner db admin device_id) })

/-- `POST /devices/{id}/restore`: only valid on a `zainstalowany` device;
reassigns it, as `dostepny`, to the installer of its most recent
installation record, falling back to the acting admin when none exists. -/
def restore_device (db : DB) (admin : SanitizedUser) (device_id : String) :
    Except HErr (DB × RestoreResponse) :=
  match db.devices.find? (fun d => d.device_id = device_id) with
  | none => .error ⟨404, "Nie znaleziono urządzenia"⟩
  | some device =>
    if device.status ≠ "zainstalowany" then
      .error ⟨400, "Urządzenie nie jest zainstalowane"⟩
    else if (updateOne (fun d => d.device_id = device_id)
        (restoreUpd (restoreOwner db admin device_id)) db.devices).2 = 0 then
      .error ⟨500, "Nie udało się przywrócić urządzenia"⟩
    else
      .ok (restoreResult db admin device_id)

/-- `POST /devices/{id}/assign`: require a truthy `worker_id`, require the
device to exist, set its owner and status to `przypisany` via
`update_one`, report 404 when the write modifies nothing, and append an
activity-log entry. -/
def assign_device (db : DB) (admin : SanitizedUser) (device_id : String)
    (worker_id : Option String) (now : Nat) (logId : String) :
    Except HErr DB :=
  if !truthy worker_id then .error ⟨400, "Wymagane worker_id"⟩
  else
    let wid := cellStr worker_id
    match db.devices.find? (fun d => d.device_id = device_id) with
    | none => .error ⟨404, "Nie znaleziono urządzenia"⟩
    | some device =>
      let worker_name :=
        match db.users.find? (fun u => u.user_id = wid) with
        | some w => w.name
        | none => "Nieznany"
      let r := updateOne (fun d => d.device_id = device_id)
        (fun d => { d with przypisany_do := some wid, status := "przypisany" })
        db.devices
      if r.2 = 0 then .error ⟨404, "Nie znaleziono urządzenia"⟩
      else
        let log : ActivityLog :=
          { log_id := logId, timestamp := now
            user_id := admin.user_id, user_name := admin.name, user_role := "admin"
            action_type := "device_assign"
            action_description := "Przypisano urządzenie " ++ device.nazwa
              ++ " (" ++ device.numer_seryjny ++ ") do " ++ worker_name
            device_serial := some device.numer_seryjny
            device_name := some device.nazwa, device_id := some device_id
            target_user_id := some wid, target_user_name := some worker_name }
        .ok { db with devices := r.1, activity_logs := db.activity_logs ++ [log] }

-- ==================== USER ROLE UPDATE ====================

/-- `PUT /users/{id}/role`: validate the role, set it on the first user
with the given id via `update_one`, and report 404 when the write
modifies nothing. -/
def update_user_role (db : DB) (_admin : SanitizedUser) (user_id : String)
    (role : Option String) : Except HErr DB :=
  if ¬(role = some "admin" ∨ role = some "pracownik") then
    .error ⟨400, "Nieprawidłowa rola"⟩
  else
    let r := updateOne (fun u => u.user_id = user_id)
      (fun u => { u with role := cellStr role }) db.users
    if r.2 = 0 then .error ⟨404, "Nie znaleziono użytkownika"⟩
    else .ok { db with users := r.1 }

-- ==================== TASK UPDATE ====================

/-- The JSON body of `PUT /tasks/{id}`: an outer `none` means the key is
absent (`"k" in body` is false); `description`'s inner option carries a
possibly-null JSON value; `due_date` arrives as an already-parsed date. -/
structure TaskBody where
  status : Option String := none
  title : Option String := none
  description : Option (Option String) := none
  due_date : Option Nat := none
  priority : Option String := none
  completion_photos : Option (List String) := none
deriving Repr, DecidableEq

/-- The field updates `update_task` collects into `update_data`:
`status` and `completion_photos` for any caller (`completion_photos` also
stamps `completed_at`/`completed_by`), the remaining fields only when the
caller's role is admin. -/
def applyTaskUpdate (caller : SanitizedUser) (body : TaskBody) (now : Nat)
    (t : Task) : Task :=
  let t := match body.status with
    | some s => { t with status := s }
    | none => t
  let t := match body.title with
    | some s => if caller.role = "admin" then { t with title := s } else t
    | none => t
  let t := match body.description with
    | some d => if caller.role = "admin" then { t with description := d } else t
    | none => t
  let t := match body.due_date with
    | some d => if caller.role = "admin" then { t with due_date := d } else t
    | none => t
  let t := match body.priority with
    | some p => if caller.role = "admin" then { t with priority := p } else t
    | none => t
  match body.completion_photos with
  | some ps => { t with
      completion_photos := some ps
      completed_at := some now
      completed_by := some caller.user_id }
  | none => t

/-- `update_data` stays empty: no settable field is present for this
caller's role. -/
def taskUpdateEmpty (caller : SanitizedUser) (body : TaskBody) : Bool :=
  body.status.isNone && body.completion_photos.isNone
    && (decide (caller.role ≠ "admin")
      || (body.title.isNone && body.description.isNone
        && body.due_date.isNone && body.priority.isNone))

/-- `PUT /tasks/{id}`: build `update_data` from the body (no check of the
task's assignee anywhere), apply it to the first task with the given id
via `update_one`, and report 404 when the write modifies nothing.  An
empty `update_data` makes Mongo reject the `$set`, which surfaces as an
uncaught 500. -/
def update_task (db : DB) (caller : SanitizedUser) (task_id : String)
    (body : TaskBody) (now : Nat) : Except HErr DB :=
  if taskUpdateEmpty caller body then
    .error ⟨500, "'$set' is empty"⟩
  else
    let r := updateOne (fun t => t.task_id = task_id)
      (applyTaskUpdate caller body now) db.tasks
    if r.2 = 0 then .error ⟨404, "Nie znaleziono zadania"⟩
    else .ok { db with tasks := r.1 }

-- ==================== CONCRETE FIXTURES AND SPEC-LEVEL COUNTS ====================

/-- A stored user whose password hash is a known digest string. -/
def hashedUser : User :=
  { user_id := "u1", email := "kamil@magazyn.its.kielce.pl", name := "Kamil"
    password_hash := "8d969eef6ecad3c29a3a629280e686cf"
    role := "admin" }

/-- A store holding just `hashedUser`. -/
def dbWithHash : DB := { users := [hashedUser] }

/-- Concrete login fixtures: one stored user with digest `h:pw` and one
prior session of that user. -/
def loginDigest (s : String) : String := "h:" ++ s

/-- The stored user of the login fixtures. -/
def loginUser : User :=
  { user_id := "u1", email := "a@b.pl", name := "Ala"
    password_hash := "h:pw", role := "pracownik" }

/-- A store with `loginUser` and one of their prior sessions. -/
def loginDb : DB :=
  { users := [loginUser]
    user_sessions := [{ user_id := "u1", session_token := "oldtok"
                        expires_at := 500, created_at := 0 }] }

/-- Restore witness fixture: the installed device. -/
def restoreDev1 : Device :=
  { device_id := "d1", nazwa := "ONT", numer_seryjny := "SN1"
    przypisany_do := some "adm", status := "zainstalowany" }

/-- Restore witness fixture: a merely-assigned device. -/
def restoreDev2 : Device :=
  { device_id := "d2", nazwa := "STB", numer_seryjny := "SN2"
    przypisany_do := some "w2", status := "przypisany" }

/-- Restore witness fixture: the earlier installation of `d1`, by `w1`. -/
def restoreInst1 : Installation :=
  { installation_id := "i1", device_id := "d1", user_id := "w1"
    installer_name := "W1", nazwa_urzadzenia := "ONT", numer_seryjny := "SN1"
    kod_kreskowy := "", data_instalacji := 3, adres_klienta := "ul. A 1"
    rodzaj_zlecenia := "instalacja" }

/-- Restore witness fixture: the later installation of `d1`, by `w2`. -/
def restoreInst2 : Installation :=
  { installation_id := "i2", device_id := "d1", user_id := "w2"
    installer_name := "Wanda", nazwa_urzadzenia := "ONT", numer_seryjny := "SN1"
    kod_kreskowy := "", data_instalacji := 5, adres_klienta := "ul. A 2"
    rodzaj_zlecenia := "serwis" }

/-- Fixtures for the restore witness: an installed device with two
installation records, the later one by `w2`. -/
def restoreDb : DB :=
  { users := [{ user_id := "w2", email := "w2@b.pl", name := "Wanda"
                password_hash := "h", role := "pracownik" }]
    devices := [restoreDev1, restoreDev2]
    installations := [restoreInst1, restoreInst2] }

/-- The acting admin of the restore witness. -/
def restoreAdmin : SanitizedUser :=
  { user_id := "adm", email := "adm@b.pl", name := "Admin", role := "admin" }

/-- No-op assign fixture: a device already assigned to `w1`. -/
def noopDev : Device :=
  { device_id := "d1", nazwa := "ONT", numer_seryjny := "SN1"
    przypisany_do := some "w1", status := "przypisany" }

/-- No-op role fixture: a user already `pracownik`. -/
def noopUser : User :=
  { user_id := "u1", email := "u@b.pl", name := "U"
    password_hash := "h", role := "pracownik" }

/-- No-op task fixture: a task whose status is already `w_trakcie`. -/
def noopTask : Task :=
  { task_id := "t1", title := "T", assigned_to := "w1", assigned_by := "adm"
    due_date := 10, status := "w_trakcie" }

/-- The admin caller of the no-op witness. -/
def noopAdmin : SanitizedUser :=
  { user_id := "adm", email := "adm@b.pl", name := "Admin", role := "admin" }

/-- Tasks fixture for the C6 counterexample: assigned to `w1`. -/
def c6Task : Task :=
  { task_id := "t1", title := "T", assigned_to := "w1", assigned_by := "adm"
    due_date := 10 }

/-- C6 counterexample caller: a worker who is NOT the task's assignee. -/
def c6Caller : SanitizedUser :=
  { user_id := "w2", email := "w2@b.pl", name := "W2", role := "pracownik" }

/-- C6 witness fixtures: the same task updated by its admin creator. -/
def c6Admin : SanitizedUser :=
  { user_id := "adm", email := "a@b.pl", name := "A", role := "admin" }

/-- C1 counterexample fixture: a worker holding the device. -/
def c1Worker : User :=
  { user_id := "w1", email := "w@b.pl", name := "W"
    password_hash := "h", role := "pracownik" }

/-- C1 counterexample fixture: the device, assigned to the worker. -/
def c1Dev : Device :=
  { device_id := "d1", nazwa := "ONT", numer_seryjny := "SN1"
    przypisany_do := some "w1", status := "przypisany" }

/-- C1 counterexample store: no user holds the admin role. -/
def c1Db : DB := { users := [c1Worker], devices := [c1Dev] }

/-- C1 witness store: the worker, an admin, and the assigned device. -/
def c1DbOk : DB :=
  { users := [c1Worker,
      { user_id := "adm", email := "a@b.pl", name := "A"
        password_hash := "h", role := "admin" }]
    devices := [c1Dev] }

/-- C3 fixture: a device whose serial is pending in returns. -/
def c3Dev : Device :=
  { device_id := "d1", nazwa := "ONT", numer_seryjny := "SN9"
    kod_kreskowy := some "BC9", kod_qr := some "QR9", status := "dostepny" }

/-- C3 fixture: the pending return entry for serial `SN9`. -/
def c3Ret : DeviceReturn :=
  { return_id := "r1", device_serial := "SN9", device_type := "ONT"
    device_status := "nowy", scanned_at := 0, scanned_by := "adm"
    scanned_by_name := "A" }

/-- C3 fixture store. -/
def c3Db : DB := { devices := [c3Dev], device_returns := [c3Ret] }

/-- C3 fixture caller. -/
def c3Admin : SanitizedUser :=
  { user_id := "adm", email := "a@b.pl", name := "A", role := "admin" }

/-- C2 counterexample fixture: a pending return with serial `RT1`. -/
def c2Ret : DeviceReturn :=
  { return_id := "r2", device_serial := "RT1", device_type := "ONT"
    device_status := "nowy", scanned_at := 0, scanned_by := "adm"
    scanned_by_name := "A" }

/-- C2 counterexample store: no devices at all, one pending return. -/
def c2Db : DB := { device_returns := [c2Ret] }

/-- C2 witness stores: two devices, the second reachable only through
later phases. -/
def c2Dev1 : Device :=
  { device_id := "da", nazwa := "ONT", numer_seryjny := "AAA111"
    kod_kreskowy := some "BAR111", kod_qr := some "QRX111"
    status := "dostepny" }

/-- Second C2 witness device. -/
def c2Dev2 : Device :=
  { device_id := "db", nazwa := "STB", numer_seryjny := "ZZZ999"
    kod_kreskowy := none, kod_qr := none, status := "dostepny" }

/-- C2 witness store. -/
def c2DbOk : DB := { devices := [c2Dev1, c2Dev2] }

/-- N: the data rows of an import — rows with a truthy first cell. -/
def rowsN (rows : List Row) : Nat :=
  (rows.filter rowFirstTruthy).length

/-- K: data rows whose serial is blank. -/
def blankK (rows : List Row) : Nat :=
  (rows.filter (fun r => rowFirstTruthy r && rowSerial r = "")).length

/-- M: data rows whose (non-blank) serial is already present — in the
given stored serials or introduced by an earlier row of the same batch.
This is the claim's own definition of a duplicate row, phrased over
serial lists alone. -/
def dupM (serials : List String) : List Row → Nat
  | [] => 0
  | r :: rs =>
    if !rowFirstTruthy r then dupM serials rs
    else if rowSerial r = "" then dupM serials rs
    else if serials.any (fun s => s = rowSerial r) then dupM serials rs + 1
    else dupM (serials ++ [rowSerial r]) rs

/-- C4 witness fixtures: one stored device with serial `SN123`. -/
def importDb : DB :=
  { devices := [{ device_id := "d0", nazwa := "ONT", numer_seryjny := "SN123" }] }

/-- C4 witness rows: a duplicate of a stored serial, a fresh serial, a
skipped row, a blank serial, and an in-batch duplicate. -/
def importRows : List Row :=
  [[some "ONT", some "SN123"],
   [some "ONT2", some "SN9"],
   [none, some "SNX"],
   [some "ONT3", none],
   [some "ONT4", some "SN9"]]

-- ==================== GENERIC LEMMAS ABOUT THE STORE ====================

theorem map_id_of_mem (f : α → α) :
    ∀ l : List α, (∀ a ∈ l, f a = a) → l.map f = l := by
  intro l h
  induction l with
  | nil => rfl
  | cons x xs ih =>
    simp only [List.map_cons, h x (by simp)]
    rw [ih (fun a ha => h a (by simp [ha]))]

theorem filter_nil_of_mem (p : α → Bool) :
    ∀ l : List α, (∀ a ∈ l, p a = false) → l.filter p = [] := by
  intro l h
  induction l with
  | nil => rfl
  | cons x xs ih =>
    rw [List.filter_cons]
    simp only [h x (by simp)]
    simpa using ih (fun a ha => h a (by simp [ha]))

theorem updateOne_of_find?_none [DecidableEq α] (p : α → Bool) (f : α → α) :
    ∀ l : List α, l.find? p = none → updateOne p f l = (l, 0) := by
  intro l h
  induction l with
  | nil => rfl
  | cons x xs ih =>
    cases hp : p x with
    | true =>
      rw [List.find?_cons_of_pos _ hp] at h
      exact absurd h (by simp)
    | false =>
      rw [List.find?_cons_of_neg _ (by simp [hp])] at h
      simp [updateOne, hp, ih h]

theorem updateOne_count [DecidableEq α] (p : α → Bool) (f : α → α) :
    ∀ (l : List α) (x : α), l.find? p = some x →
      (updateOne p f l).2 = (if f x = x then 0 else 1) := by
  intro l
  induction l with
  | nil => intro x h; simp [List.find?] at h
  | cons y ys ih =>
    intro x h
    cases hp : p y with
    | true =>
      rw [List.find?_cons_of_pos _ hp] at h
      cases h
      simp [updateOne, hp]
    | false =>
      rw [List.find?_cons_of_neg _ (by simp [hp])] at h
      simp [updateOne, hp, ih x h]

theorem updateOne_find? [DecidableEq α] (p : α → Bool) (f : α → α)
    (hp : ∀ a, p (f a) = p a) :
    ∀ (l : List α) (x : α), l.find? p = some x →
      (updateOne p f l).1.find? p = some (f x) := by
  intro l
  induction l with
  | nil => intro x h; simp [List.find?] at h
  | cons y ys ih =>
    intro x h
    cases hq : p y with
    | true =>
      rw [List.find?_cons_of_pos _ hq] at h
      cases h
      simp [updateOne, hq, List.find?_cons_of_pos, hp, hq]
    | false =>
      rw [List.find?_cons_of_neg _ (by simp [hq])] at h
      simp only [updateOne, hq]
      simp only [Bool.false_eq_true, if_false]
      rw [List.find?_cons_of_neg _ (by simp [hq])]
      exact ih x h

-- ==================== C9 ====================

/-- C9: `mark_all_returned` is idempotent: after one call every
`DeviceReturn` entry has `returned_to_warehouse` set, and an immediately
following second call leaves the state exactly as it was and reports a
modified count of 0, with no entries left pending. -/
theorem mark_returns_idempotent (db : DB) (now now2 : Nat) :
    (∀ r ∈ (mark_returns_as_returned db now).1.device_returns,
      r.returned_to_warehouse = true) ∧
    mark_returns_as_returned (mark_returns_as_returned db now).1 now2 =
      ((mark_returns_as_returned db now).1, 0) := by
  have hall : ∀ r ∈ (mark_returns_as_returned db now).1.device_returns,
      r.returned_to_warehouse = true := by
    intro r hr
    simp only [mark_returns_as_returned] at hr
    rw [List.mem_map] at hr
    obtain ⟨s, _, hs⟩ := hr
    subst hs
    cases hrw : s.returned_to_warehouse <;> simp [hrw, markReturnUpd]
  refine ⟨hall, ?_⟩
  simp only [mark_returns_as_returned] at hall ⊢
  rw [map_id_of_mem _ _ (fun a ha => by simp [hall a ha]),
    filter_nil_of_mem _ _ (fun a ha => by simp [hall a ha])]
  rfl

-- ==================== C7 ====================

theorem scrub_keeps_sanitized (u : User) :
    sanitizeUser { u with password_hash := "" } = sanitizeUser u := rfl

theorem scrub_filter_workers (l : List User) :
    (l.map (fun u => { u with password_hash := "" })).filter
        (fun u => u.role = "pracownik") =
      (l.filter (fun u => u.role = "pracownik")).map
        (fun u => { u with password_hash := "" }) := by
  induction l with
  | nil => rfl
  | cons u us ih =>
    by_cases h : u.role = "pracownik" <;>
      simp [List.filter_cons, h, ih]

theorem scrub_find?_user (l : List User) (q : String) :
    (l.map (fun u => { u with password_hash := "" })).find?
        (fun u => u.user_id = q) =
      (l.find? (fun u => u.user_id = q)).map
        (fun u => { u with password_hash := "" }) := by
  induction l with
  | nil => rfl
  | cons u us ih =>
    simp only [List.map_cons]
    by_cases h : u.user_id = q
    · rw [List.find?_cons_of_pos _ (by simp [h]),
        List.find?_cons_of_pos _ (by simp [h])]
      rfl
    · rw [List.find?_cons_of_neg _ (by simp [h]),
        List.find?_cons_of_neg _ (by simp [h]), ih]

/-- C7 counterexample: the claim is false for the backup snapshot — in a
store holding one user with digest `8d969eef6ecad3c29a3a629280e686cf`,
the `users` section of `create_backup_data`'s output carries that
`password_hash` verbatim (only `_id` is projected out), so the backup
produced by `POST /backup/create` / streamed by `GET /backup/download`
does expose stored password hashes. -/
theorem backup_contains_password_hash :
    (create_backup_data dbWithHash 0).users.map User.password_hash =
      ["8d969eef6ecad3c29a3a629280e686cf"] := rfl

/-- C7 amended: the read endpoints (user listing, workers, auth/me's
session resolution) omit stored password hashes — their responses are
invariant under scrubbing every stored hash — but the backup snapshot of
`create_backup_data` (the payload of backup create/download) includes
each stored user verbatim, `password_hash` included. -/
theorem handlers_hash_exposure (db : DB) (tok : Option String) (now : Nat) :
    get_users (scrubHashes db) = get_users db ∧
    get_workers (scrubHashes db) = get_workers db ∧
    get_current_user (scrubHashes db) tok now = get_current_user db tok now ∧
    (create_backup_data db now).users = db.users := by
  refine ⟨?_, ?_, ?_, rfl⟩
  · simp [get_users, scrubHashes, List.map_map, Function.comp,
      scrub_keeps_sanitized]
  · simp only [get_workers, scrubHashes, scrub_filter_workers,
      List.map_map]
    simp [Function.comp, scrub_keeps_sanitized]
  · unfold get_current_user scrubHashes
    cases tok with
    | none => rfl
    | some t =>
      simp only
      cases db.user_sessions.find? (fun s => s.session_token = t) with
      | none => rfl
      | some session =>
        simp only
        by_cases hexp : session.expires_at ≤ now
        · simp [hexp]
        · simp only [if_neg hexp, scrub_find?_user]
          cases db.users.find? (fun u => u.user_id = session.user_id) with
          | none => rfl
          | some u => simp [scrub_keeps_sanitized]

-- ==================== C5 ====================

/-- C5: `login` with correct credentials purges every prior session of the
user and inserts exactly one fresh session with a 7-day expiry, so
afterwards the user's sessions are exactly the new one and a previously
issued token of that user (distinct from the new one) no longer resolves;
`login` with an unknown email or a wrong password digest fails with 401
`InvalidCredentials` — and since the handler raises before its first
write (mirrored by the embedding's error results carrying no state), the
users, sessions and activity-log collections are untouched. -/
theorem login_session_exclusivity (hash : String → String) (db : DB)
    (email password token : String) (now : Nat) (ip ua logId : String) :
    (∀ u, db.users.find? (fun v => v.email = lowerStr email) = some u →
      u.password_hash = hash password →
      login hash db email password token now ip ua logId =
          .ok (loginStep db u token now ip ua logId,
            { user_id := u.user_id, email := u.email, name := u.name
              role := u.role, session_token := token }) ∧
        (loginStep db u token now ip ua logId).user_sessions.filter
            (fun s => s.user_id = u.user_id) =
          [loginNewSession u.user_id token now] ∧
        (∀ t, t ≠ token →
          (∀ s ∈ db.user_sessions, s.session_token = t → s.user_id = u.user_id) →
          get_current_user (loginStep db u token now ip ua logId)
            (some t) now = none)) ∧
    ((db.users.find? (fun v => v.email = lowerStr email) = none ∨
      ∃ u, db.users.find? (fun v => v.email = lowerStr email) = some u ∧
        u.password_hash ≠ hash password) →
      login hash db email password token now ip ua logId =
        .error ⟨401, "Nieprawidłowy email lub hasło"⟩) := by
  constructor
  · intro u hu hpw
    refine ⟨?_, ?_, ?_⟩
    · unfold login
      rw [hu]
      simp [hpw]
    · show ((db.user_sessions.filter (fun s => s.user_id ≠ u.user_id)) ++
        [loginNewSession u.user_id token now]).filter
          (fun s => s.user_id = u.user_id) = _
      rw [List.filter_append,
        filter_nil_of_mem _ _ (fun s hs => by
          have hne := (List.mem_filter.mp hs).2
          simp at hne ⊢
          exact hne)]
      simp [loginNewSession]
    · intro t ht honly
      have hfind : ((db.user_sessions.filter (fun s => s.user_id ≠ u.user_id)) ++
          [loginNewSession u.user_id token now]).find?
            (fun s => s.session_token = t) = none := by
        rw [List.find?_eq_none]
        intro s hs
        rw [List.mem_append] at hs
        cases hs with
        | inl hs =>
          have hne := (List.mem_filter.mp hs).2
          have hmem := (List.mem_filter.mp hs).1
          simp only [decide_eq_true_eq] at hne ⊢
          intro hst
          exact hne (honly s hmem hst)
        | inr hs =>
          simp at hs
          subst hs
          simp [loginNewSession, Ne.symm ht]
      unfold get_current_user loginStep
      simp only at hfind ⊢
      rw [hfind]
  · intro hbad
    cases hbad with
    | inl hnone =>
      unfold login
      rw [hnone]
    | inr hsome =>
      obtain ⟨u, hu, hne⟩ := hsome
      unfold login
      rw [hu]
      simp [hne]

/-- Witness for C5: the login theorem applied at concrete inputs — a
correct login purges `oldtok` and leaves exactly the fresh session, a
wrong password yields 401. -/
theorem login_session_exclusivity_witness :
    (loginStep loginDb loginUser "tokN" 100 "ip" "ua" "lg").user_sessions.filter
        (fun s => s.user_id = "u1") = [loginNewSession "u1" "tokN" 100] ∧
    get_current_user (loginStep loginDb loginUser "tokN" 100 "ip" "ua" "lg")
      (some "oldtok") 100 = none ∧
    login loginDigest loginDb "A@B.pl" "bad" "tokN" 100 "ip" "ua" "lg" =
      .error ⟨401, "Nieprawidłowy email lub hasło"⟩ := by
  have h := login_session_exclusivity loginDigest loginDb "A@B.pl" "pw" "tokN"
    100 "ip" "ua" "lg"
  have h2 := login_session_exclusivity loginDigest loginDb "A@B.pl" "bad" "tokN"
    100 "ip" "ua" "lg"
  exact ⟨(h.1 loginUser (by decide) (by decide)).2.1,
    (h.1 loginUser (by decide) (by decide)).2.2 "oldtok" (by decide) (by decide),
    h2.2 (Or.inr ⟨loginUser, by decide, by decide⟩)⟩

-- ==================== C8 ====================

theorem chooseLater_step (acc : Option Installation) (i : Installation) :
    ∃ a, chooseLater acc i = some a ∧
      i.data_instalacji ≤ a.data_instalacji ∧
      (∀ b, acc = some b → b.data_instalacji ≤ a.data_instalacji) := by
  cases acc with
  | none =>
    exact ⟨i, rfl, le_refl _, by intro b hb; cases hb⟩
  | some j =>
    by_cases hlt : j.data_instalacji < i.data_instalacji
    · refine ⟨i, by simp [chooseLater, hlt], le_refl _, ?_⟩
      intro b hb
      cases hb
      exact le_of_lt hlt
    · refine ⟨j, by simp [chooseLater, hlt], le_of_not_lt hlt, ?_⟩
      intro b hb
      cases hb
      exact le_refl _

theorem foldl_chooseLater_some (l : List Installation) :
    ∀ (a : Installation), ∃ m, l.foldl chooseLater (some a) = some m := by
  induction l with
  | nil => intro a; exact ⟨a, rfl⟩
  | cons i is ih =>
    intro a
    rw [List.foldl_cons]
    obtain ⟨b, hb, -, -⟩ := chooseLater_step (some a) i
    rw [hb]
    exact ih b

theorem foldl_chooseLater_le (l : List Installation) :
    ∀ (acc : Option Installation) (m : Installation),
      l.foldl chooseLater acc = some m →
      (∀ j ∈ l, j.data_instalacji ≤ m.data_instalacji) ∧
      (∀ a, acc = some a → a.data_instalacji ≤ m.data_instalacji) := by
  induction l with
  | nil =>
    intro acc m h
    rw [List.foldl_nil] at h
    refine ⟨by simp, ?_⟩
    intro a ha
    rw [h] at ha
    injection ha with ha
    rw [ha]
  | cons i is ih =>
    intro acc m h
    rw [List.foldl_cons] at h
    obtain ⟨a, ha, hia, hacc⟩ := chooseLater_step acc i
    rw [ha] at h
    have hrec := ih (some a) m h
    constructor
    · intro j hj
      rw [List.mem_cons] at hj
      cases hj with
      | inl hj => exact hj ▸ le_trans hia (hrec.2 a rfl)
      | inr hj => exact hrec.1 j hj
    · intro b hb
      exact le_trans (hacc b hb) (hrec.2 a rfl)

theorem latestInstallation_le (insts : List Installation) (did : String)
    (inst : Installation) (h : latestInstallation insts did = some inst) :
    ∀ j ∈ insts, j.device_id = did →
      j.data_instalacji ≤ inst.data_instalacji := by
  intro j hj hjd
  exact (foldl_chooseLater_le _ _ _ h).1 j
    (List.mem_filter.mpr ⟨hj, by simp [hjd]⟩)

theorem latestInstallation_none (insts : List Installation) (did : String)
    (h : latestInstallation insts did = none) :
    ∀ i ∈ insts, i.device_id ≠ did := by
  intro i hi hid
  have hmem : i ∈ insts.filter (fun i => i.device_id = did) :=
    List.mem_filter.mpr ⟨hi, by simp [hid]⟩
  unfold latestInstallation at h
  cases hf : insts.filter (fun i => i.device_id = did) with
  | nil => rw [hf] at hmem; cases hmem
  | cons x xs =>
    rw [hf, List.foldl_cons] at h
    obtain ⟨a, ha, -, -⟩ := chooseLater_step none x
    rw [ha] at h
    obtain ⟨m, hm⟩ := foldl_chooseLater_some xs a
    rw [hm] at h
    cases h

/-- C8: `restore` succeeds only on a `zainstalowany` device — on a
`dostepny` or `przypisany` device it fails with 400 `InvalidInput` (the
handler raises before any write, so the device is untouched) — and after
a successful restore the device's status is `dostepny` and its owner is
`restoreOwner`: the `user_id` of the device's most recent installation
record (no other installation of that device has a later date, and the
fallback is taken exactly when no installation record for the device
exists), or the acting admin when there is none. -/
theorem restore_device_spec (db : DB) (admin : SanitizedUser)
    (device_id : String) :
    (∀ device, db.devices.find? (fun d => d.device_id = device_id) = some device →
      device.status = "dostepny" ∨ device.status = "przypisany" →
      restore_device db admin device_id =
        .error ⟨400, "Urządzenie nie jest zainstalowane"⟩) ∧
    (∀ pr, restore_device db admin device_id = .ok pr →
      ∃ device, db.devices.find? (fun d => d.device_id = device_id) = some device ∧
        device.status = "zainstalowany") ∧
    (∀ device, db.devices.find? (fun d => d.device_id = device_id) = some device →
      device.status = "zainstalowany" →
      restore_device db admin device_id = .ok (restoreResult db admin device_id) ∧
      (restoreResult db admin device_id).1.devices.find?
          (fun d => d.device_id = device_id) =
        some { device with
                status := "dostepny"
                przypisany_do := some (restoreOwner db admin device_id) } ∧
      (restoreResult db admin device_id).2.assigned_to =
        restoreOwner db admin device_id) ∧
    (∀ inst, latestInstallation db.installations device_id = some inst →
      restoreOwner db admin device_id = inst.user_id ∧
      (∀ j ∈ db.installations, j.device_id = device_id →
        j.data_instalacji ≤ inst.data_instalacji)) ∧
    (latestInstallation db.installations device_id = none →
      restoreOwner db admin device_id = admin.user_id ∧
      ∀ i ∈ db.installations, i.device_id ≠ device_id) := by
  refine ⟨?_, ?_, ?_, ?_, ?_⟩
  · intro device hfind hst
    unfold restore_device
    rw [hfind]
    have hne : device.status ≠ "zainstalowany" := by
      cases hst with
      | inl h => rw [h]; decide
      | inr h => rw [h]; decide
    simp [hne]
  · intro pr hok
    unfold restore_device at hok
    cases hfind : db.devices.find? (fun d => d.device_id = device_id) with
    | none => rw [hfind] at hok; cases hok
    | some device =>
      rw [hfind] at hok
      by_cases hst : device.status = "zainstalowany"
      · exact ⟨device, rfl, hst⟩
      · simp [hst] at hok
  · intro device hfind hst
    have hne : restoreUpd (restoreOwner db admin device_id) device ≠ device := by
      intro hc
      have hs := congrArg Device.status hc
      rw [hst] at hs
      simp only [restoreUpd] at hs
      exact absurd hs (by decide)
    have hcount := updateOne_count (fun d => d.device_id = device_id)
      (restoreUpd (restoreOwner db admin device_id)) db.devices device hfind
    rw [if_neg hne] at hcount
    refine ⟨?_, ?_, rfl⟩
    · unfold restore_device
      rw [hfind]
      simp [hst, hcount]
    · show ({ db with devices := (updateOne (fun d => d.device_id = device_id)
        (restoreUpd (restoreOwner db admin device_id)) db.devices).1 } : DB).devices.find?
          (fun d => d.device_id = device_id) = _
      simp only
      rw [updateOne_find? (fun d : Device => d.device_id = device_id)
        (restoreUpd (restoreOwner db admin device_id)) (fun a => rfl)
        db.devices device hfind]
      rfl
  · intro inst hinst
    refine ⟨?_, latestInstallation_le _ _ _ hinst⟩
    unfold restoreOwner
    rw [hinst]
  · intro hnone
    refine ⟨?_, latestInstallation_none _ _ hnone⟩
    unfold restoreOwner
    rw [hnone]

/-- Witness for C8: restoring the installed `d1` hands it back to `w2`
(the latest installer), and restoring the merely-assigned `d2` fails with
400. -/
theorem restore_device_spec_witness :
    restore_device restoreDb restoreAdmin "d1" =
      .ok (restoreResult restoreDb restoreAdmin "d1") ∧
    (restoreResult restoreDb restoreAdmin "d1").2.assigned_to =
      restoreOwner restoreDb restoreAdmin "d1" ∧
    restoreOwner restoreDb restoreAdmin "d1" = "w2" ∧
    restore_device restoreDb restoreAdmin "d2" =
      .error ⟨400, "Urządzenie nie jest zainstalowane"⟩ := by
  have h1 := restore_device_spec restoreDb restoreAdmin "d1"
  have h2 := restore_device_spec restoreDb restoreAdmin "d2"
  refine ⟨(h1.2.2.1 restoreDev1 (by decide) (by decide)).1,
    (h1.2.2.1 restoreDev1 (by decide) (by decide)).2.2, ?_, ?_⟩
  · have hown := (h1.2.2.2.1 restoreInst2 (by decide)).1
    rw [hown]
    rfl
  · exact h2.1 restoreDev2 (by decide) (Or.inr (by decide))

-- ==================== C10 ====================

/-- C10: three update handlers decide "not found" from `modified_count`,
so a write that is a no-op on an existing record reports 404: assigning a
device already assigned to the same worker with status `przypisany`,
setting a user's role to their current role, and a task update whose
effective field set (nonempty `update_data`) leaves the stored task
unchanged, each yield 404 although the target record exists (witnessed by
the `find?` hypotheses). -/
theorem noop_updates_report_404 :
    (∀ (db : DB) (admin : SanitizedUser) (device_id w : String) (now : Nat)
      (logId : String) (d : Device),
      db.devices.find? (fun x => x.device_id = device_id) = some d →
      d.przypisany_do = some w → d.status = "przypisany" → w ≠ "" →
      assign_device db admin device_id (some w) now logId =
        .error ⟨404, "Nie znaleziono urządzenia"⟩) ∧
    (∀ (db : DB) (admin : SanitizedUser) (user_id r : String) (u : User),
      (r = "admin" ∨ r = "pracownik") →
      db.users.find? (fun x => x.user_id = user_id) = some u →
      u.role = r →
      update_user_role db admin user_id (some r) =
        .error ⟨404, "Nie znaleziono użytkownika"⟩) ∧
    (∀ (db : DB) (caller : SanitizedUser) (task_id : String) (body : TaskBody)
      (now : Nat) (t : Task),
      taskUpdateEmpty caller body = false →
      db.tasks.find? (fun x => x.task_id = task_id) = some t →
      applyTaskUpdate caller body now t = t →
      update_task db caller task_id body now =
        .error ⟨404, "Nie znaleziono zadania"⟩) := by
  refine ⟨?_, ?_, ?_⟩
  · intro db admin device_id w now logId d hfind hpd hst hw
    have hfx : (fun x : Device =>
        { x with przypisany_do := some (cellStr (some w)),
                 status := "przypisany" }) d = d := by
      cases d
      simp_all [cellStr]
    have hcount := updateOne_count (fun x : Device => x.device_id = device_id)
      (fun x => { x with przypisany_do := some (cellStr (some w))
                         status := "przypisany" }) db.devices d hfind
    rw [if_pos hfx] at hcount
    unfold assign_device
    simp [truthy, hw, hfind, hcount]
  · intro db admin user_id r u hr hfind hrole
    have hfx : (fun x : User => { x with role := cellStr (some r) }) u = u := by
      cases u
      simp_all [cellStr]
    have hcount := updateOne_count (fun x : User => x.user_id = user_id)
      (fun x => { x with role := cellStr (some r) }) db.users u hfind
    rw [if_pos hfx] at hcount
    unfold update_user_role
    have hvalid : (some r = some "admin" ∨ some r = some "pracownik") := by
      cases hr with
      | inl h => exact Or.inl (by rw [h])
      | inr h => exact Or.inr (by rw [h])
    simp [hvalid, hfind, hcount]
    exact fun h => hr.resolve_left h
  · intro db caller task_id body now t hne hfind hfx
    have hcount := updateOne_count (fun x : Task => x.task_id = task_id)
      (applyTaskUpdate caller body now) db.tasks t hfind
    rw [if_pos hfx] at hcount
    unfold update_task
    simp [hne, hfind, hcount]

/-- Witness for C10: each no-op update on the concrete fixtures reports
404 although the record exists. -/
theorem noop_updates_report_404_witness :
    assign_device { devices := [noopDev] } noopAdmin "d1" (some "w1") 0 "lg" =
      .error ⟨404, "Nie znaleziono urządzenia"⟩ ∧
    update_user_role { users := [noopUser] } noopAdmin "u1" (some "pracownik") =
      .error ⟨404, "Nie znaleziono użytkownika"⟩ ∧
    update_task { tasks := [noopTask] } noopAdmin "t1"
        { status := some "w_trakcie" } 0 =
      .error ⟨404, "Nie znaleziono zadania"⟩ := by
  refine ⟨?_, ?_, ?_⟩
  · exact noop_updates_report_404.1 { devices := [noopDev] } noopAdmin "d1" "w1"
      0 "lg" noopDev (by decide) (by decide) (by decide) (by decide)
  · exact noop_updates_report_404.2.1 { users := [noopUser] } noopAdmin "u1"
      "pracownik" noopUser (Or.inr rfl) (by decide) (by decide)
  · exact noop_updates_report_404.2.2 { tasks := [noopTask] } noopAdmin "t1"
      { status := some "w_trakcie" } 0 noopTask (by decide) (by decide) (by decide)

-- ==================== C6 ====================

theorem applyTaskUpdate_task_id (caller : SanitizedUser) (body : TaskBody)
    (now : Nat) (t : Task) :
    (applyTaskUpdate caller body now t).task_id = t.task_id := by
  unfold applyTaskUpdate
  cases body.status <;> cases body.title <;> cases body.description <;>
    cases body.due_date <;> cases body.priority <;>
    cases body.completion_photos <;>
    by_cases h : caller.role = "admin" <;> simp [h]

theorem applyTaskUpdate_of_empty (caller : SanitizedUser) (body : TaskBody)
    (now : Nat) (t : Task) (h : taskUpdateEmpty caller body = true) :
    applyTaskUpdate caller body now t = t := by
  unfold taskUpdateEmpty at h
  simp only [Bool.and_eq_true, Bool.or_eq_true, decide_eq_true_eq,
    Option.isNone_iff_eq_none] at h
  obtain ⟨⟨hs, hp⟩, hrest⟩ := h
  obtain ⟨bs, bt, bd, bdd, bp, bph⟩ := body
  simp only at hs hp hrest
  subst hs
  subst hp
  unfold applyTaskUpdate
  cases hrest with
  | inl hadm =>
    cases bt <;> cases bd <;> cases bdd <;> cases bp <;> simp [hadm]
  | inr hnone =>
    obtain ⟨⟨⟨ht, hd⟩, hdd⟩, hp2⟩ := hnone
    subst ht
    subst hd
    subst hdd
    subst hp2
    rfl

/-- C6 is false as stated: `update_task` never consults the task's
assignee, so the non-admin caller `w2`, who is not the assignee of `t1`
(`assigned_to = "w1"`), successfully changes its status. -/
theorem task_update_by_non_assignee :
    update_task { tasks := [c6Task] } c6Caller "t1"
        { status := some "zakonczone" } 0 =
      .ok { tasks := [{ c6Task with status := "zakonczone" }] } := rfl

/-- C6 amended: title, description, due_date and priority take effect
only when the caller's role is admin (a non-admin's values for them are
dropped), while `status` and `completion_photos` may be changed by ANY
authenticated caller — the handler performs no assignee check — with
`completion_photos` also recording the completion timestamp and the
completer's id; the effective update is applied to the stored task
whenever it changes it. -/
theorem update_task_field_rules (db : DB) (caller : SanitizedUser)
    (task_id : String) (body : TaskBody) (now : Nat) :
    (∀ t : Task, caller.role ≠ "admin" →
      (applyTaskUpdate caller body now t).title = t.title ∧
      (applyTaskUpdate caller body now t).description = t.description ∧
      (applyTaskUpdate caller body now t).due_date = t.due_date ∧
      (applyTaskUpdate caller body now t).priority = t.priority) ∧
    (∀ (t : Task) (s : String), body.status = some s →
      (applyTaskUpdate caller body now t).status = s) ∧
    (∀ (t : Task) (ps : List String), body.completion_photos = some ps →
      (applyTaskUpdate caller body now t).completion_photos = some ps ∧
      (applyTaskUpdate caller body now t).completed_at = some now ∧
      (applyTaskUpdate caller body now t).completed_by = some caller.user_id) ∧
    (∀ (t : Task) (s : String), caller.role = "admin" → body.title = some s →
      (applyTaskUpdate caller body now t).title = s) ∧
    (∀ (t : Task) (dsc : Option String), caller.role = "admin" →
      body.description = some dsc →
      (applyTaskUpdate caller body now t).description = dsc) ∧
    (∀ (t : Task) (dd : Nat), caller.role = "admin" → body.due_date = some dd →
      (applyTaskUpdate caller body now t).due_date = dd) ∧
    (∀ (t : Task) (p : String), caller.role = "admin" → body.priority = some p →
      (applyTaskUpdate caller body now t).priority = p) ∧
    (∀ t : Task, db.tasks.find? (fun x => x.task_id = task_id) = some t →
      applyTaskUpdate caller body now t ≠ t →
      update_task db caller task_id body now =
        .ok { db with tasks := (updateOne (fun x => x.task_id = task_id)
                (applyTaskUpdate caller body now) db.tasks).1 } ∧
      (updateOne (fun x => x.task_id = task_id)
          (applyTaskUpdate caller body now) db.tasks).1.find?
            (fun x => x.task_id = task_id) =
        some (applyTaskUpdate caller body now t)) := by
  refine ⟨?_, ?_, ?_, ?_, ?_, ?_, ?_, ?_⟩
  · intro t hadm
    unfold applyTaskUpdate
    cases body.status <;> cases body.title <;> cases body.description <;>
      cases body.due_date <;> cases body.priority <;>
      cases body.completion_photos <;> simp [hadm]
  · intro t s hs
    unfold applyTaskUpdate
    rw [hs]
    cases body.title <;> cases body.description <;> cases body.due_date <;>
      cases body.priority <;> cases body.completion_photos <;>
      by_cases h : caller.role = "admin" <;> simp [h]
  · intro t ps hps
    unfold applyTaskUpdate
    rw [hps]
    cases body.status <;> cases body.title <;> cases body.description <;>
      cases body.due_date <;> cases body.priority <;>
      by_cases h : caller.role = "admin" <;> simp [h]
  · intro t s hadm hs
    unfold applyTaskUpdate
    rw [hs]
    cases body.status <;> cases body.description <;> cases body.due_date <;>
      cases body.priority <;> cases body.completion_photos <;> simp [hadm]
  · intro t dsc hadm hd
    unfold applyTaskUpdate
    rw [hd]
    cases body.status <;> cases body.title <;> cases body.due_date <;>
      cases body.priority <;> cases body.completion_photos <;> simp [hadm]
  · intro t dd hadm hdd
    unfold applyTaskUpdate
    rw [hdd]
    cases body.status <;> cases body.title <;> cases body.description <;>
      cases body.priority <;> cases body.completion_photos <;> simp [hadm]
  · intro t p hadm hp
    unfold applyTaskUpdate
    rw [hp]
    cases body.status <;> cases body.title <;> cases body.description <;>
      cases body.due_date <;> cases body.completion_photos <;> simp [hadm]
  · intro t hfind hne
    have hempty : taskUpdateEmpty caller body = false := by
      cases h : taskUpdateEmpty caller body with
      | true => exact absurd (applyTaskUpdate_of_empty caller body now t h) hne
      | false => rfl
    have hcount := updateOne_count (fun x : Task => x.task_id = task_id)
      (applyTaskUpdate caller body now) db.tasks t hfind
    rw [if_neg hne] at hcount
    constructor
    · unfold update_task
      simp [hempty, hcount]
    · exact updateOne_find? (fun x : Task => x.task_id = task_id)
        (applyTaskUpdate caller body now)
        (fun a => by simp [applyTaskUpdate_task_id]) db.tasks t hfind

/-- Witness for C6 (amended): a non-admin's title edit is dropped while
their status edit goes through, an admin's title edit takes effect, and
the effective update lands in the store. -/
theorem update_task_field_rules_witness :
    (applyTaskUpdate c6Caller { title := some "X", status := some "w_trakcie" } 0
      c6Task).title = "T" ∧
    (applyTaskUpdate c6Caller { title := some "X", status := some "w_trakcie" } 0
      c6Task).status = "w_trakcie" ∧
    (applyTaskUpdate c6Admin { title := some "X" } 0 c6Task).title = "X" ∧
    update_task { tasks := [c6Task] } c6Caller "t1"
        { title := some "X", status := some "w_trakcie" } 0 =
      .ok { tasks := (updateOne (fun x => x.task_id = "t1")
              (applyTaskUpdate c6Caller
                { title := some "X", status := some "w_trakcie" } 0)
              [c6Task]).1 } := by
  have h := update_task_field_rules { tasks := [c6Task] } c6Caller "t1"
    { title := some "X", status := some "w_trakcie" } 0
  have h2 := update_task_field_rules { tasks := [c6Task] } c6Admin "t1"
    { title := some "X" } 0
  exact ⟨(h.1 c6Task (by decide)).1,
    h.2.1 c6Task "w_trakcie" rfl,
    h2.2.2.2.1 c6Task "X" rfl rfl,
    (h.2.2.2.2.2.2.2 c6Task (by decide) (by decide)).1⟩

-- ==================== C1 ====================

/-- C1 is false as stated: with a non-blank address, an existing device
assigned to the (non-admin) caller, the operation still fails — with a
500, because no user currently holds the admin role for the ownership
hand-over (reachable, since `PUT /users/{id}/role` lets the last admin
demote themselves). -/
theorem installation_requires_admin_present :
    create_installation c1Db (sanitizeUser c1Worker)
        { device_id := some "d1", adres_klienta := some "ul. Polna 1" }
        0 "i1" "l1" =
      .error ⟨500, "Brak administratora w systemie"⟩ := rfl

/-- C1 amended: a request whose `adres_klienta` and legacy `adres` are
both absent or blank always fails with a 400 `InvalidInput` (before any
write); if the resolved address is non-blank, the named device exists,
the caller is admin or the device is assigned to the caller, AND at
least one user with role admin exists, the operation succeeds: the
installation record is appended, the device's status becomes
`zainstalowany`, and its owner becomes the first stored user holding the
admin role. -/
theorem create_installation_spec (db : DB) (caller : SanitizedUser)
    (body : InstallBody) (now : Nat) (instId logId : String) :
    ((∀ s, body.adres_klienta = some s → stripStr s = "") →
     (∀ s, body.adres = some s → stripStr s = "") →
     ∃ e, create_installation db caller body now instId logId = .error e ∧
       e.status = 400) ∧
    (∀ a device adminU,
      resolvedAddr body = some a → ¬stripStr a = "" →
      truthy body.device_id = true →
      db.devices.find? (fun d => d.device_id = cellStr body.device_id) =
        some device →
      (device.przypisany_do = some caller.user_id ∨ caller.role = "admin") →
      db.users.find? (fun u => u.role = "admin") = some adminU →
      adminU.role = "admin" ∧
      create_installation db caller body now instId logId =
        .ok (installOk db caller body device adminU now instId logId) ∧
      (installOk db caller body device adminU now instId logId).1.installations =
        db.installations ++ [installRecord caller body device now instId] ∧
      (installRecord caller body device now instId).adres_klienta = stripStr a ∧
      (installRecord caller body device now instId).user_id = caller.user_id ∧
      (installOk db caller body device adminU now instId logId).1.devices.find?
          (fun d => d.device_id = cellStr body.device_id) =
        some { device with
                status := "zainstalowany"
                przypisany_do := some adminU.user_id
                zainstalowany_przez := some caller.user_id
                installer_name := some caller.name
                adres_instalacji := some (stripStr a)
                data_instalacji := some now }) := by
  constructor
  · intro hak had
    have haddr : stripStr (cellStr (resolvedAddr body)) = "" := by
      unfold resolvedAddr
      by_cases htk : truthy body.adres_klienta = true
      · rw [if_pos htk]
        cases hk : body.adres_klienta with
        | none => rfl
        | some s => exact hak s hk
      · rw [if_neg htk]
        cases ha : body.adres with
        | none => rfl
        | some s => exact had s ha
    by_cases hdev : truthy body.device_id
    · refine ⟨⟨400, "Wymagany adres klienta"⟩, ?_, rfl⟩
      unfold create_installation
      rw [hdev]
      simp [haddr]
    · refine ⟨⟨400, "Wymagane device_id"⟩, ?_, rfl⟩
      unfold create_installation
      simp only [Bool.not_eq_true] at hdev
      rw [hdev]
      rfl
  · intro a device adminU hra hblank hdev hfind hperm hadmin
    have hrole : adminU.role = "admin" := by
      have hp := List.find?_some hadmin
      simpa using hp
    have hane : a ≠ "" := by
      intro hc
      subst hc
      exact hblank rfl
    have htra : truthy (resolvedAddr body) = true := by
      rw [hra]
      simp [truthy, hane]
    have hstrip : stripStr (cellStr (resolvedAddr body)) = stripStr a := by
      rw [hra]
      rfl
    refine ⟨hrole, ?_, rfl, hstrip, rfl, ?_⟩
    · have hpermne :
          ¬(device.przypisany_do ≠ some caller.user_id ∧ caller.role ≠ "admin") := by
        intro hc
        cases hperm with
        | inl h => exact hc.1 h
        | inr h => exact hc.2 h
      have hcond : (!truthy (resolvedAddr body)
          || decide (stripStr (cellStr (resolvedAddr body)) = "")) = false := by
        rw [htra, hstrip]
        simp [hblank]
      unfold create_installation
      rw [hdev]
      simp only [Bool.not_true, Bool.false_eq_true, if_false, hcond, hfind]
      rw [if_neg hpermne]
      simp only [hadmin]
    · show ({ db with
        installations := db.installations ++
          [installRecord caller body device now instId]
        devices := (updateOne (fun d => d.device_id = cellStr body.device_id)
          (installDevUpd caller adminU.user_id
            (stripStr (cellStr (resolvedAddr body))) now) db.devices).1
        activity_logs := _ } : DB).devices.find?
          (fun d => d.device_id = cellStr body.device_id) = _
      simp only
      rw [updateOne_find? (fun d : Device => d.device_id = cellStr body.device_id)
        (installDevUpd caller adminU.user_id
          (stripStr (cellStr (resolvedAddr body))) now)
        (fun x => rfl) db.devices device hfind]
      rw [hstrip]
      rfl

/-- Witness for C1 (amended): with an admin present the worker's request
succeeds and the device moves to the admin pool as `zainstalowany`; a
request with a blank address fails with a 400. -/
theorem create_installation_spec_witness :
    create_installation c1DbOk (sanitizeUser c1Worker)
        { device_id := some "d1", adres_klienta := some " ul. Polna 1 " }
        7 "i1" "l1" =
      .ok (installOk c1DbOk (sanitizeUser c1Worker)
        { device_id := some "d1", adres_klienta := some " ul. Polna 1 " }
        c1Dev { user_id := "adm", email := "a@b.pl", name := "A"
                password_hash := "h", role := "admin" } 7 "i1" "l1") ∧
    (∃ e, create_installation c1DbOk (sanitizeUser c1Worker)
        { device_id := some "d1", adres_klienta := some "   " } 7 "i1" "l1" =
      .error e ∧ e.status = 400) := by
  have h := create_installation_spec c1DbOk (sanitizeUser c1Worker)
    { device_id := some "d1", adres_klienta := some " ul. Polna 1 " } 7 "i1" "l1"
  have h2 := create_installation_spec c1DbOk (sanitizeUser c1Worker)
    { device_id := some "d1", adres_klienta := some "   " } 7 "i1" "l1"
  refine ⟨?_, ?_⟩
  · exact (h.2 " ul. Polna 1 " c1Dev
      { user_id := "adm", email := "a@b.pl", name := "A"
        password_hash := "h", role := "admin" }
      (by decide) (by decide) (by decide) (by decide)
      (Or.inl (by decide)) (by decide)).2.1
  · exact h2.1 (by intro s hs; injection hs with hs; rw [← hs]; rfl)
      (by intro s hs; cases hs)

-- ==================== C3 ====================

/-- C3 is false as stated: device `d1`'s serial `SN9` is pending in
`DeviceReturn`, yet scanning the device by its barcode `BC9` is NOT
rejected — the pending-return check compares the scan input only against
`device_serial`, so the scan succeeds and returns the device. -/
theorem scan_pending_bypassed_by_barcode :
    scan_device c3Db c3Admin "BC9" = .ok c3Dev := rfl

/-- C3 amended: the conflict rejection fires exactly when the cleaned
scan input case-insensitively equals the serial of some pending
`DeviceReturn` entry — and then it happens before any other check and
for admin and non-admin callers alike; when no pending serial matches the
input (in particular when the device is scanned by a barcode or QR code
different from every pending serial), the gate stays silent and the scan
proceeds to the normal matching cascade. -/
theorem scan_pending_return_gate (db : DB) (caller : SanitizedUser)
    (code : String) :
    (db.device_returns.any (fun r => ciEq r.device_serial (cleanCode code)
        && !r.returned_to_warehouse) = true →
      scan_device db caller code =
        .error ⟨400, "Urządzenie " ++ cleanCode code
          ++ " jest już w panelu Zwrot urządzeń"⟩) ∧
    (db.device_returns.any (fun r => ciEq r.device_serial (cleanCode code)
        && !r.returned_to_warehouse) = false →
      ∀ d, caller.role = "admin" →
        findByCode db.devices (cleanCode code) = some d →
        scan_device db caller code = .ok d) := by
  constructor
  · intro hany
    unfold scan_device
    simp only [hany, if_true]
  · intro hany d hadm hfind
    unfold scan_device
    simp only [hany, Bool.false_eq_true, if_false, hfind, hadm]
    simp

/-- Witness for C3 (amended): the gate fires on the (case-insensitive)
serial `sn9` for an admin caller, and stays silent for the barcode
`BC9`, which then matches the device. -/
theorem scan_pending_return_gate_witness :
    scan_device c3Db c3Admin "sn9" =
      .error ⟨400, "Urządzenie sn9 jest już w panelu Zwrot urządzeń"⟩ ∧
    scan_device c3Db c3Admin " BC9\n" = .ok c3Dev := by
  have h1 := scan_pending_return_gate c3Db c3Admin "sn9"
  have h2 := scan_pending_return_gate c3Db c3Admin " BC9\n"
  constructor
  · rw [h1.1 (by decide)]
    rfl
  · exact h2.2 (by decide) c3Dev (by decide) (by decide)

-- ==================== C2 ====================

theorem findByCode_eq_none (l : List Device) (c : String)
    (h : ∀ d ∈ l, devMatches c d = false) : findByCode l c = none := by
  have hx : ∀ (p : Device → Bool), (∀ d ∈ l, p d = false) → l.find? p = none :=
    fun p hp => List.find?_eq_none.mpr (fun d hd => by simp [hp d hd])
  have hd1 : ∀ d ∈ l, matchExact c d = false := by
    intro d hd
    have hm := h d hd
    simp [devMatches] at hm
    exact hm.1.1.1
  have hd2 : ∀ d ∈ l, matchCi c d = false := by
    intro d hd
    have hm := h d hd
    simp [devMatches] at hm
    exact hm.1.1.2
  have hd3 : ∀ d ∈ l, matchSerialContains c d = false := by
    intro d hd
    have hm := h d hd
    simp [devMatches] at hm
    exact hm.1.2
  have hd4 : ∀ d ∈ l, matchCodeContains c d = false := by
    intro d hd
    have hm := h d hd
    simp [devMatches] at hm
    exact hm.2
  unfold findByCode
  rw [hx _ hd1, hx _ hd2, hx _ hd3, hx _ hd4]
  rfl

theorem findByCode_isSome (l : List Device) (c : String) (d : Device)
    (hd : d ∈ l) (h : devMatches c d = true) :
    ∃ e, findByCode l c = some e ∧ devMatches c e = true := by
  cases hf : findByCode l c with
  | some e =>
    refine ⟨e, rfl, ?_⟩
    unfold findByCode at hf
    cases h1 : l.find? (matchExact c) with
    | some x =>
      rw [h1] at hf
      injection hf with hf
      subst hf
      have := List.find?_some h1
      simp [devMatches, this]
    | none =>
      rw [h1] at hf
      rw [Option.none_orElse'] at hf
      cases h2 : l.find? (matchCi c) with
      | some x =>
        rw [h2] at hf
        injection hf with hf
        subst hf
        have := List.find?_some h2
        simp [devMatches, this]
      | none =>
        rw [h2] at hf
        rw [Option.none_orElse'] at hf
        cases h3 : l.find? (matchSerialContains c) with
        | some x =>
          rw [h3] at hf
          injection hf with hf
          subst hf
          have := List.find?_some h3
          simp [devMatches, this]
        | none =>
          rw [h3] at hf
          rw [Option.none_orElse'] at hf
          have := List.find?_some hf
          simp [devMatches, this]
  | none =>
    exfalso
    unfold findByCode at hf
    cases h1 : l.find? (matchExact c) with
    | some x => rw [h1] at hf; cases hf
    | none =>
      rw [h1] at hf
      rw [Option.none_orElse'] at hf
      cases h2 : l.find? (matchCi c) with
      | some x => rw [h2] at hf; cases hf
      | none =>
        rw [h2] at hf
        rw [Option.none_orElse'] at hf
        cases h3 : l.find? (matchSerialContains c) with
        | some x => rw [h3] at hf; cases hf
        | none =>
          rw [h3] at hf
          rw [Option.none_orElse'] at hf
          have hall := List.find?_eq_none.mp hf d hd
          have h1' := List.find?_eq_none.mp h1 d hd
          have h2' := List.find?_eq_none.mp h2 d hd
          have h3' := List.find?_eq_none.mp h3 d hd
          simp only [Bool.not_eq_true] at hall h1' h2' h3'
          simp [devMatches, h1', h2', h3', hall] at h

theorem findByCode_mem (l : List Device) (c : String) (d : Device)
    (h : findByCode l c = some d) : d ∈ l := by
  unfold findByCode at h
  cases h1 : l.find? (matchExact c) with
  | some x =>
    rw [h1] at h
    injection h with h
    subst h
    exact List.mem_of_find?_eq_some h1
  | none =>
    rw [h1] at h
    rw [Option.none_orElse'] at h
    cases h2 : l.find? (matchCi c) with
    | some x =>
      rw [h2] at h
      injection h with h
      subst h
      exact List.mem_of_find?_eq_some h2
    | none =>
      rw [h2] at h
      rw [Option.none_orElse'] at h
      cases h3 : l.find? (matchSerialContains c) with
      | some x =>
        rw [h3] at h
        injection h with h
        subst h
        exact List.mem_of_find?_eq_some h3
      | none =>
        rw [h3] at h
        rw [Option.none_orElse'] at h
        exact List.mem_of_find?_eq_some h

theorem scan_device_ok (db : DB) (caller : SanitizedUser) (code : String)
    (d : Device)
    (hany : db.device_returns.any (fun r => ciEq r.device_serial (cleanCode code)
      && !r.returned_to_warehouse) = false)
    (hadm : caller.role = "admin")
    (hfind : findByCode db.devices (cleanCode code) = some d) :
    scan_device db caller code = .ok d := by
  unfold scan_device
  simp only [hany, Bool.false_eq_true, if_false, hfind, hadm]
  simp

/-- C2 is false as stated: no device matches the scanned code `RT1`
under any of the four phases (the store has no devices), yet the scan
does not fail with `NotFound` — the pending-return gate fires first and
rejects the code with a 400 conflict error. -/
theorem scan_nomatch_not_notfound :
    scan_device c2Db c3Admin "RT1" =
      .error ⟨400, "Urządzenie RT1 jest już w panelu Zwrot urządzeń"⟩ := rfl

/-- C2 amended: provided the cleaned code does not case-insensitively
equal the serial of a pending return entry, a scan matching no device
under any of the four phases fails with `NotFound`; the four phases are
tried in the stated order with the first match winning (each earlier
phase's hit is the result, and phase 4 only decides when the first three
found nothing); and — additionally provided the caller is admin, so the
worker status gates cannot fire — a stored device reachable by exact
serial/barcode/QR, a case-insensitive exact variant of each, or because
the scanned string contains the device's serial, barcode, or QR, makes
the scan succeed with a matching device, and with the device itself when
it is the only one stored. -/
theorem scan_matching_spec (db : DB) (caller : SanitizedUser) (code : String) :
    ((db.device_returns.any (fun r => ciEq r.device_serial (cleanCode code)
        && !r.returned_to_warehouse)) = false →
      (∀ d ∈ db.devices, devMatches (cleanCode code) d = false) →
      scan_device db caller code = .error ⟨404, "Nie znaleziono urządzenia"⟩) ∧
    (∀ d, db.devices.find? (matchExact (cleanCode code)) = some d →
      findByCode db.devices (cleanCode code) = some d) ∧
    (∀ d, db.devices.find? (matchExact (cleanCode code)) = none →
      db.devices.find? (matchCi (cleanCode code)) = some d →
      findByCode db.devices (cleanCode code) = some d) ∧
    (∀ d, db.devices.find? (matchExact (cleanCode code)) = none →
      db.devices.find? (matchCi (cleanCode code)) = none →
      db.devices.find? (matchSerialContains (cleanCode code)) = some d →
      findByCode db.devices (cleanCode code) = some d) ∧
    (db.devices.find? (matchExact (cleanCode code)) = none →
      db.devices.find? (matchCi (cleanCode code)) = none →
      db.devices.find? (matchSerialContains (cleanCode code)) = none →
      findByCode db.devices (cleanCode code) =
        db.devices.find? (matchCodeContains (cleanCode code))) ∧
    (∀ d, d ∈ db.devices →
      (db.device_returns.any (fun r => ciEq r.device_serial (cleanCode code)
        && !r.returned_to_warehouse)) = false →
      caller.role = "admin" →
      (cleanCode code = d.numer_seryjny ∨
       d.kod_kreskowy = some (cleanCode code) ∨
       d.kod_qr = some (cleanCode code) ∨
       ciEq d.numer_seryjny (cleanCode code) = true ∨
       optCiEq d.kod_kreskowy (cleanCode code) = true ∨
       optCiEq d.kod_qr (cleanCode code) = true ∨
       (!d.numer_seryjny.isEmpty &&
         strContains (upperStr (cleanCode code))
           (upperStr d.numer_seryjny)) = true ∨
       fieldInCode (cleanCode code) d.kod_kreskowy = true ∨
       fieldInCode (cleanCode code) d.kod_qr = true) →
      (∃ e, scan_device db caller code = .ok e ∧
        devMatches (cleanCode code) e = true) ∧
      (db.devices = [d] → scan_device db caller code = .ok d)) := by
  refine ⟨?_, ?_, ?_, ?_, ?_, ?_⟩
  · intro hany hall
    unfold scan_device
    rw [findByCode_eq_none _ _ hall]
    simp only [hany, Bool.false_eq_true, if_false]
  · intro d h1
    unfold findByCode
    rw [h1]
    rfl
  · intro d h1 h2
    unfold findByCode
    rw [h1, h2]
    rfl
  · intro d h1 h2 h3
    unfold findByCode
    rw [h1, h2, h3]
    rfl
  · intro h1 h2 h3
    unfold findByCode
    rw [h1, h2, h3]
    rfl
  · intro d hd hany hadm hrel
    have hm : devMatches (cleanCode code) d = true := by
      rcases hrel with h | h | h | h | h | h | h | h | h
      · simp [devMatches, matchExact, h]
      · simp [devMatches, matchExact, h]
      · simp [devMatches, matchExact, h]
      · simp [devMatches, matchCi, h]
      · simp [devMatches, matchCi, h]
      · simp [devMatches, matchCi, h]
      · simp [devMatches, matchCodeContains, h]
      · simp [devMatches, matchCodeContains, h]
      · simp [devMatches, matchCodeContains, h]
    obtain ⟨e, hfe, hme⟩ := findByCode_isSome db.devices (cleanCode code) d hd hm
    refine ⟨⟨e, scan_device_ok db caller code e hany hadm hfe, hme⟩, ?_⟩
    intro hsingle
    have hed : e = d := by
      have hmem := findByCode_mem db.devices (cleanCode code) e hfe
      rw [hsingle] at hmem
      simpa using hmem
    rw [← hed]
    exact scan_device_ok db caller code e hany hadm hfe

/-- Witness for C2 (amended): a code matching nothing 404s, phase-1 and
phase-2 hits resolve as stated, a substring scan of the only matching
device succeeds, and a singleton store returns the device itself for a
case-insensitive barcode variant. -/
theorem scan_matching_spec_witness :
    scan_device c2DbOk c3Admin "NOPE" =
      .error ⟨404, "Nie znaleziono urządzenia"⟩ ∧
    findByCode c2DbOk.devices (cleanCode "BAR111") = some c2Dev1 ∧
    findByCode c2DbOk.devices (cleanCode "zzz999") = some c2Dev2 ∧
    (∃ e, scan_device c2DbOk c3Admin "XXZZZ999YY" = .ok e ∧
      devMatches (cleanCode "XXZZZ999YY") e = true) ∧
    scan_device { devices := [c2Dev1] } c3Admin "bar111" = .ok c2Dev1 := by
  have h := scan_matching_spec c2DbOk c3Admin "NOPE"
  have h2 := scan_matching_spec c2DbOk c3Admin "BAR111"
  have h3 := scan_matching_spec c2DbOk c3Admin "zzz999"
  have h4 := scan_matching_spec c2DbOk c3Admin "XXZZZ999YY"
  have h5 := scan_matching_spec { devices := [c2Dev1] } c3Admin "bar111"
  refine ⟨h.1 (by decide) (by decide), ?_, ?_, ?_, ?_⟩
  · exact h2.2.1 c2Dev1 (by decide)
  · exact h3.2.2.1 c2Dev2 (by decide) (by decide)
  · exact (h4.2.2.2.2.2 c2Dev2 (by decide) (by decide) (by decide)
      (by decide)).1
  · exact (h5.2.2.2.2.2 c2Dev1 (by decide) (by decide) (by decide)
      (by decide)).2 (by decide)

-- ==================== C4 ====================

theorem importLoop_spec (admin : SanitizedUser) (fname : String) (now : Nat) :
    ∀ (rows : List Row) (db : DB) (rowNum : Nat),
      (importLoop admin fname now db rowNum rows).2.imported
          + dupM (db.devices.map (fun d => d.numer_seryjny)) rows
          + blankK rows = rowsN rows ∧
      (importLoop admin fname now db rowNum rows).2.duplicates =
        dupM (db.devices.map (fun d => d.numer_seryjny)) rows ∧
      (importLoop admin fname now db rowNum rows).2.errors.length =
        dupM (db.devices.map (fun d => d.numer_seryjny)) rows + blankK rows ∧
      ((db.devices.map (fun d => d.numer_seryjny)).Nodup →
        ((importLoop admin fname now db rowNum rows).1.devices.map
          (fun d => d.numer_seryjny)).Nodup) := by
  intro rows
  induction rows with
  | nil =>
    intro db rowNum
    refine ⟨rfl, rfl, rfl, fun h => h⟩
  | cons r rs ih =>
    intro db rowNum
    by_cases h1 : rowFirstTruthy r = true
    · by_cases h2 : rowSerial r = ""
      · -- blank serial: an error entry, no insert
        have heq : importLoop admin fname now db rowNum (r :: rs) =
            ((importLoop admin fname now db (rowNum + 1) rs).1,
             { (importLoop admin fname now db (rowNum + 1) rs).2 with
                errors := ("Wiersz " ++ toString rowNum
                  ++ ": Brak numeru seryjnego") ::
                  (importLoop admin fname now db (rowNum + 1) rs).2.errors }) := by
          simp only [importLoop]
          rw [if_neg (by simp [h1]), if_pos h2]
        have hN : rowsN (r :: rs) = rowsN rs + 1 := by
          unfold rowsN
          rw [List.filter_cons, if_pos (by simp [h1])]
          simp
        have hK : blankK (r :: rs) = blankK rs + 1 := by
          unfold blankK
          rw [List.filter_cons, if_pos (by simp [h1, h2])]
          simp
        have hM : dupM (db.devices.map (fun d => d.numer_seryjny)) (r :: rs) =
            dupM (db.devices.map (fun d => d.numer_seryjny)) rs := by
          simp only [dupM]
          rw [if_neg (by simp [h1]), if_pos h2]
        obtain ⟨ihA, ihB, ihC, ihD⟩ := ih db (rowNum + 1)
        rw [heq, hN, hK, hM]
        refine ⟨by simpa using by omega, by simpa using ihB, ?_, ihD⟩
        simp only [List.length_cons]
        omega
      · by_cases h3 : db.devices.any (fun d => d.numer_seryjny = rowSerial r)
          = true
        · -- duplicate serial
          have heq : importLoop admin fname now db rowNum (r :: rs) =
              ((importLoop admin fname now db (rowNum + 1) rs).1,
               { (importLoop admin fname now db (rowNum + 1) rs).2 with
                  duplicates :=
                    (importLoop admin fname now db (rowNum + 1) rs).2.duplicates
                      + 1
                  errors := ("Wiersz " ++ toString rowNum ++ ": Numer seryjny "
                    ++ rowSerial r ++ " już istnieje w systemie") ::
                    (importLoop admin fname now db (rowNum + 1) rs).2.errors }) := by
            simp only [importLoop]
            rw [if_neg (by simp [h1]), if_neg h2, if_pos h3]
          have hN : rowsN (r :: rs) = rowsN rs + 1 := by
            unfold rowsN
            rw [List.filter_cons, if_pos (by simp [h1])]
            simp
          have hK : blankK (r :: rs) = blankK rs := by
            unfold blankK
            rw [List.filter_cons, if_neg (by simp [h2])]
          have hany : (db.devices.map (fun d => d.numer_seryjny)).any
              (fun s => s = rowSerial r) = true := by
            rw [List.any_eq_true]
            rw [List.any_eq_true] at h3
            obtain ⟨d, hd, hp⟩ := h3
            refine ⟨d.numer_seryjny, List.mem_map_of_mem _ hd, ?_⟩
            simpa using hp
          have hM : dupM (db.devices.map (fun d => d.numer_seryjny)) (r :: rs) =
              dupM (db.devices.map (fun d => d.numer_seryjny)) rs + 1 := by
            simp only [dupM]
            rw [if_neg (by simp [h1]), if_neg h2, if_pos hany]
          obtain ⟨ihA, ihB, ihC, ihD⟩ := ih db (rowNum + 1)
          rw [heq, hN, hK, hM]
          refine ⟨by simpa using by omega, by simpa using by omega, ?_, ihD⟩
          simp only [List.length_cons]
          omega
        · -- fresh serial: insert
          have heq : importLoop admin fname now db rowNum (r :: rs) =
              ((importLoop admin fname now (importInsert admin fname now db
                  rowNum r) (rowNum + 1) rs).1,
               { (importLoop admin fname now (importInsert admin fname now db
                    rowNum r) (rowNum + 1) rs).2 with
                  imported :=
                    (importLoop admin fname now (importInsert admin fname now db
                      rowNum r) (rowNum + 1) rs).2.imported + 1 }) := by
            simp only [importLoop]
            rw [if_neg (by simp [h1]), if_neg h2, if_neg (by simp [h3])]
          have hN : rowsN (r :: rs) = rowsN rs + 1 := by
            unfold rowsN
            rw [List.filter_cons, if_pos (by simp [h1])]
            simp
          have hK : blankK (r :: rs) = blankK rs := by
            unfold blankK
            rw [List.filter_cons, if_neg (by simp [h2])]
          have h3f : db.devices.any (fun d => d.numer_seryjny = rowSerial r)
              = false := by
            cases hx : db.devices.any (fun d => d.numer_seryjny = rowSerial r) with
            | true => exact absurd hx h3
            | false => rfl
          have hany : (db.devices.map (fun d => d.numer_seryjny)).any
              (fun s => s = rowSerial r) = false := by
            rw [List.any_eq_false]
            intro s hs
            rw [List.mem_map] at hs
            obtain ⟨d, hd, rfl⟩ := hs
            have hpt := List.any_eq_false.mp h3f d hd
            simpa using hpt
          have hM : dupM (db.devices.map (fun d => d.numer_seryjny)) (r :: rs) =
              dupM (db.devices.map (fun d => d.numer_seryjny)
                ++ [rowSerial r]) rs := by
            simp only [dupM]
            rw [if_neg (by simp [h1]), if_neg h2, if_neg (by simp [hany])]
          have hdev : (importInsert admin fname now db rowNum r).devices.map
              (fun d => d.numer_seryjny) =
              db.devices.map (fun d => d.numer_seryjny) ++ [rowSerial r] := by
            unfold importInsert
            simp [importDeviceOfRow]
          obtain ⟨ihA, ihB, ihC, ihD⟩ :=
            ih (importInsert admin fname now db rowNum r) (rowNum + 1)
          rw [hdev] at ihA ihB ihC ihD
          rw [heq, hN, hK, hM]
          refine ⟨by simpa using by omega, by simpa using ihB,
            by simpa using ihC, ?_⟩
          intro hnodup
          have hnotin : rowSerial r ∉ db.devices.map (fun d => d.numer_seryjny) := by
            intro hmem
            rw [List.mem_map] at hmem
            obtain ⟨d, hd, hds⟩ := hmem
            have hpt := List.any_eq_false.mp h3f d hd
            simp [hds] at hpt
          apply ihD
          rw [List.nodup_append]
          refine ⟨hnodup, List.nodup_singleton _, ?_⟩
          intro a ha hb
          simp only [List.mem_singleton] at hb
          exact hnotin (hb ▸ ha)
    · -- skipped row: falsy first cell
      have h1f : rowFirstTruthy r = false := by
        cases hx : rowFirstTruthy r with
        | true => exact absurd hx h1
        | false => rfl
      have heq : importLoop admin fname now db rowNum (r :: rs) =
          importLoop admin fname now db (rowNum + 1) rs := by
        simp only [importLoop]
        rw [if_pos (by simp [h1f])]
      have hN : rowsN (r :: rs) = rowsN rs := by
        unfold rowsN
        rw [List.filter_cons, if_neg (by simp [h1f])]
      have hK : blankK (r :: rs) = blankK rs := by
        unfold blankK
        rw [List.filter_cons, if_neg (by simp [h1f])]
      have hM : dupM (db.devices.map (fun d => d.numer_seryjny)) (r :: rs) =
          dupM (db.devices.map (fun d => d.numer_seryjny)) rs := by
        simp only [dupM]
        rw [if_pos (by simp [h1f])]
      rw [heq, hN, hK, hM]
      exact ih db (rowNum + 1)

/-- C4: importing a sheet whose data rows (non-empty first cell) number
N, of which M carry a serial already in storage or introduced by an
earlier row of the batch and K have a blank serial, reports
`imported = N - M - K`, `duplicates = M`, an error list of exactly M + K
messages, and preserves serial uniqueness of the stored devices. -/
theorem import_devices_spec (db : DB) (admin : SanitizedUser) (fname : String)
    (now : Nat) (rows : List Row) :
    (import_devices db admin fname now rows).2.imported
        + dupM (db.devices.map (fun d => d.numer_seryjny)) rows
        + blankK rows = rowsN rows ∧
    (import_devices db admin fname now rows).2.imported =
      rowsN rows - (dupM (db.devices.map (fun d => d.numer_seryjny)) rows
        + blankK rows) ∧
    (import_devices db admin fname now rows).2.duplicates =
      dupM (db.devices.map (fun d => d.numer_seryjny)) rows ∧
    (import_devices db admin fname now rows).2.errors.length =
      dupM (db.devices.map (fun d => d.numer_seryjny)) rows + blankK rows ∧
    ((db.devices.map (fun d => d.numer_seryjny)).Nodup →
      ((import_devices db admin fname now rows).1.devices.map
        (fun d => d.numer_seryjny)).Nodup) := by
  have hdef : import_devices db admin fname now rows =
      importLoop admin fname now db 2 rows := rfl
  obtain ⟨hA, hB, hC, hD⟩ := importLoop_spec admin fname now rows db 2
  rw [hdef]
  exact ⟨hA, by omega, hB, hC, hD⟩

/-- Witness for C4: on the concrete batch the counts come out as
1 imported, 2 duplicates, 3 errors out of 4 data rows, and the stored
serials stay duplicate-free. -/
theorem import_devices_spec_witness :
    ((import_devices importDb c3Admin "f.xlsx" 0 importRows).1.devices.map
      (fun d => d.numer_seryjny)).Nodup ∧
    (import_devices importDb c3Admin "f.xlsx" 0 importRows).2.imported = 1 ∧
    (import_devices importDb c3Admin "f.xlsx" 0 importRows).2.duplicates = 2 ∧
    (import_devices importDb c3Admin "f.xlsx" 0 importRows).2.errors.length = 3 ∧
    rowsN importRows = 4 := by
  refine ⟨?_, by decide, by decide, by decide, by decide⟩
  exact (import_devices_spec importDb c3Admin "f.xlsx" 0 importRows).2.2.2.2
    (by decide)

end ITS
